import Mathlib

/-!
# Containerd check: events and metrics normalisation

A shallow embedding of `pkg/collector/corechecks/containers/containerd.go`.

* The sender (`aggregator.Sender`) is modelled by its call log: `computeEvents`
  returns the list of records passed to `sender.Event`, the metric functions
  return the list of gauges passed to `sender.Gauge`, each with the tag sequence
  it had at the time of the call.
* A Go run-time panic (nil pointer dereference, slice bounds out of range) is
  modelled by the `fault` flag of `Outcome`: the gauges sent before the panic
  stay in the log, nothing is sent after it. The generated `Size()` methods
  read their receiver, so a call of `Size()` through a nil pointer panics.
* A Go `map[string]string` handed to the code is a list of entries, in the
  order in which `range` visits them.
* `float64(x)` is left symbolic: a gauge carries the integer that the source
  converts.
-/

namespace Containerd

/-! ## Events -/

/-- The name under which the check registers (`containerdCheckName`). -/
def containerdCheckName : String := "containerd"

/-- The priority of an event record (`metrics.EventPriority`). -/
inductive EventPriority where
  | normal
  | low
  deriving DecidableEq, Repr

/-- The fields of `ContainerdEvent` read by `computeEvents`. `Timestamp` holds
the value of `e.Timestamp.Unix()`; `Extra` lists the map entries in the order
in which `range e.Extra` yields them. -/
structure ContainerdEvent where
  ID : String
  Timestamp : Int
  Topic : String
  Message : String
  Extra : List (String × String)
  deriving DecidableEq, Repr

/-- The fields of `metrics.Event` written by `computeEvents`; the fields it
leaves at their zero value are not represented. -/
structure Event where
  Title : String
  Text : String
  Ts : Int
  Priority : EventPriority
  Host : String
  Tags : List String
  AggregationKey : String
  SourceTypeName : String
  EventType : String
  deriving DecidableEq, Repr

/-- The external tag lookup `tagger.Tag(id, highCard)`: the tags it returns
and the error, if any. -/
abbrev Tagger := String → Bool → List String × Option String

/-- Splitting a character sequence on a separator, keeping empty segments:
`n` occurrences of the separator give `n + 1` segments. -/
def splitChars (sep : Char) : List Char → List (List Char)
  | [] => [[]]
  | c :: cs =>
    if c = sep then [] :: splitChars sep cs
    else
      match splitChars sep cs with
      | [] => [[c]]
      | seg :: rest => (c :: seg) :: rest

/-- The call `strings.Split(s, "/")`. -/
def stringsSplit (s : String) : List String :=
  (splitChars '/' s.data).map String.mk

/-- The tag `fmt.Sprintf("%s:%s", k, v)`. -/
def kvTag (kv : String × String) : String := kv.1 ++ ":" ++ kv.2

/-- The body of the loop of `computeEvents` for one event: the records passed
to `sender.Event` (none when the topic does not have three segments). -/
def computeEvent (tagger : Tagger) (hostname : String) (userTags : List String)
    (e : ContainerdEvent) : List Event :=
  match stringsSplit e.Topic with
  | [_, category, _] =>
    let tags := e.Extra.map kvTag ++ userTags
    let tags :=
      if category = "containers" ∨ category = "tasks" then
        tags ++ (tagger e.ID true).1
      else tags
    [{ Priority := EventPriority.normal
       Host := hostname
       SourceTypeName := containerdCheckName
       EventType := containerdCheckName
       AggregationKey := "containerd:" ++ e.Topic
       Text := e.Message
       Tags := tags
       Ts := e.Timestamp
       Title := "Event on " ++ category ++ " from Containerd" }]
  | _ => []

/-- The function `computeEvents`: the records passed to `sender.Event`, in
call order. -/
def computeEvents (tagger : Tagger) (hostname : String)
    (events : List ContainerdEvent) (userTags : List String) : List Event :=
  events.flatMap (computeEvent tagger hostname userTags)

/-! ## Resource usage snapshot -/

/-- A `cgroups.MemoryEntry`. -/
structure MemoryEntry where
  Limit : Nat
  Usage : Nat
  Max : Nat
  Failcnt : Nat
  deriving DecidableEq, Repr

/-- The fields of `cgroups.MemoryStat` of the data model; the four entries are
pointers, `none` being the nil pointer. -/
structure MemoryStat where
  Cache : Nat
  RSS : Nat
  RSSHuge : Nat
  Dirty : Nat
  Usage : Option MemoryEntry
  Swap : Option MemoryEntry
  Kernel : Option MemoryEntry
  KernelTCP : Option MemoryEntry
  deriving DecidableEq, Repr

/-- The fields of `cgroups.CPUUsage` read by the check. -/
structure CPUUsage where
  Total : Nat
  Kernel : Nat
  User : Nat
  deriving DecidableEq, Repr

/-- The field of `cgroups.Throttle` read by the check. -/
structure Throttle where
  Periods : Nat
  deriving DecidableEq, Repr

/-- A `cgroups.CPUStat`: two pointers, `none` being the nil pointer. -/
structure CPUStat where
  Usage : Option CPUUsage
  Throttling : Option Throttle
  deriving DecidableEq, Repr

/-- A `cgroups.BlkIOEntry`. -/
structure BlkIOEntry where
  Op : String
  Device : String
  Major : Nat
  Minor : Nat
  Value : Nat
  deriving DecidableEq, Repr

/-- A `cgroups.BlkIOStat`: the eight recursive entry lists. -/
structure BlkIOStat where
  IoServiceBytesRecursive : List BlkIOEntry
  IoServicedRecursive : List BlkIOEntry
  IoQueuedRecursive : List BlkIOEntry
  IoServiceTimeRecursive : List BlkIOEntry
  IoWaitTimeRecursive : List BlkIOEntry
  IoMergedRecursive : List BlkIOEntry
  IoTimeRecursive : List BlkIOEntry
  SectorsRecursive : List BlkIOEntry
  deriving DecidableEq, Repr

/-- The fields of `cgroups.HugetlbStat` read by the check. -/
structure HugetlbStat where
  Usage : Nat
  Max : Nat
  Failcnt : Nat
  deriving DecidableEq, Repr

/-- A `cgroups.Metrics`, the decoded snapshot: `CPU`, `Memory` and `Blkio` are
pointers, `none` being the nil pointer. The elements of the repeated fields are
never nil: the decoder allocates each of them. -/
structure Metrics where
  Hugetlb : List HugetlbStat
  CPU : Option CPUStat
  Memory : Option MemoryStat
  Blkio : Option BlkIOStat
  deriving DecidableEq, Repr

/-- The snapshot `&cgroups.Metrics{}`: every sub-structure absent. -/
def Metrics.empty : Metrics :=
  { Hugetlb := [], CPU := none, Memory := none, Blkio := none }

/-- One unit for a numeric field that is not zero. -/
def nzNat (n : Nat) : Nat := if n = 0 then 0 else 1

/-- One unit for a string field that is not empty. -/
def nzStr (s : String) : Nat := if s = "" then 0 else 1

/-- Modelled from the spec: `Size()` of a `cgroups.MemoryEntry` comes from the
generated cgroups code, which is not among the sources. The check only compares
it with zero, and the spec fixes that much: the size is zero exactly when every
field is zero. Each field that is not zero counts for one unit. -/
def MemoryEntry.Size (e : MemoryEntry) : Nat :=
  nzNat e.Limit + nzNat e.Usage + nzNat e.Max + nzNat e.Failcnt

/-- Modelled from the spec: what an entry pointer counts for in the size of the
`MemoryStat` that holds it: nothing for an absent (nil) entry, the size of the
entry otherwise. -/
def MemoryEntry.ptrSize : Option MemoryEntry → Nat
  | none => 0
  | some e => e.Size

/-- Modelled from the spec: `Size()` of a `cgroups.MemoryStat`, zero exactly
when all its fields, those of its entries included, are zero. -/
def MemoryStat.Size (m : MemoryStat) : Nat :=
  nzNat m.Cache + nzNat m.RSS + nzNat m.RSSHuge + nzNat m.Dirty +
    MemoryEntry.ptrSize m.Usage + MemoryEntry.ptrSize m.Swap +
    MemoryEntry.ptrSize m.Kernel + MemoryEntry.ptrSize m.KernelTCP

/-- Modelled from the spec: the size of the Memory sub-structure in the sense
of the data model, where an absent (nil) sub-structure counts as size zero.
The call `metrics.Memory.Size()` itself goes through the pointer, see
`memoryStep`. -/
def MemoryStat.ptrSize : Option MemoryStat → Nat
  | none => 0
  | some m => m.Size

/-- Modelled from the spec: `Size()` of a `cgroups.BlkIOEntry`, zero exactly
when operation and device are empty and the three numbers are zero. -/
def BlkIOEntry.Size (m : BlkIOEntry) : Nat :=
  nzStr m.Op + nzStr m.Device + nzNat m.Major + nzNat m.Minor + nzNat m.Value

/-- The total size of the entries of one list. -/
def blkioListSize (l : List BlkIOEntry) : Nat :=
  (l.map BlkIOEntry.Size).sum

/-- Modelled from the spec: `Size()` of a `cgroups.BlkIOStat`, zero exactly
when every entry of its eight lists has size zero. -/
def BlkIOStat.Size (b : BlkIOStat) : Nat :=
  blkioListSize b.IoServiceBytesRecursive + blkioListSize b.IoServicedRecursive +
    blkioListSize b.IoQueuedRecursive + blkioListSize b.IoServiceTimeRecursive +
    blkioListSize b.IoWaitTimeRecursive + blkioListSize b.IoMergedRecursive +
    blkioListSize b.IoTimeRecursive + blkioListSize b.SectorsRecursive

/-- Modelled from the spec: the size of the Blkio sub-structure in the sense of
the data model, where an absent (nil) sub-structure counts as size zero. The
call `metrics.Blkio.Size()` itself goes through the pointer, see
`blkioStep`. -/
def BlkIOStat.ptrSize : Option BlkIOStat → Nat
  | none => 0
  | some b => b.Size

/-! ## The sender's gauge log -/

/-- One call `sender.Gauge(name, float64(value), hostname, tags)`. -/
structure Gauge where
  name : String
  value : Int
  hostname : String
  tags : List String
  deriving DecidableEq, Repr

/-- What a piece of code did to the sender: the gauges it sent, in call order,
and whether it stopped in a run-time panic. -/
structure Outcome where
  gauges : List Gauge
  fault : Bool
  deriving DecidableEq, Repr

/-- A run to completion that sent the gauges `gs`. -/
def Outcome.done (gs : List Gauge) : Outcome := { gauges := gs, fault := false }

/-- A run that sent the gauges `gs` and then panicked. -/
def Outcome.panic (gs : List Gauge) : Outcome := { gauges := gs, fault := true }

/-- Sequencing: the second piece of code runs only if the first one did not
panic. -/
def Outcome.andThen (a b : Outcome) : Outcome :=
  if a.fault then a else { gauges := a.gauges ++ b.gauges, fault := b.fault }

/-- Sequencing of a list of pieces of code, in list order. -/
def Outcome.seq : List Outcome → Outcome
  | [] => Outcome.done []
  | a :: rest => a.andThen (Outcome.seq rest)

/-! ## Metrics normalisation -/

/-- The call `sender.Gauge(name, float64(value), "", tags)`. -/
def gauge (name : String) (value : Nat) (tags : List String) : Gauge :=
  { name := name, value := (value : Int), hostname := "", tags := tags }

/-- The function `computeHugetlb`. -/
def computeHugetlb (huge : List HugetlbStat) (tags : List String) : List Gauge :=
  huge.flatMap fun h =>
    [gauge "containerd.hugetlb.max" h.Max tags,
     gauge "containerd.hugetlb.failcount" h.Failcnt tags,
     gauge "containerd.hugetlb.usage" h.Usage tags]

/-- The function `parseAndSubmitMem`; `stat` is a pointer, and the call
`stat.Size()` on line 311 panics when it is nil. -/
def parseAndSubmitMem (metricName : String) (stat : Option MemoryEntry)
    (tags : List String) : Outcome :=
  match stat with
  | none => Outcome.panic []
  | some st =>
    if st.Size = 0 then Outcome.done []
    else
      Outcome.done
        [gauge (metricName ++ ".usage") st.Usage tags,
         gauge (metricName ++ ".failcnt") st.Failcnt tags,
         gauge (metricName ++ ".limit") st.Limit tags,
         gauge (metricName ++ ".max") st.Max tags]

/-- The map `memList` of `computeMem`, in the order of the map literal. -/
def memList (mem : MemoryStat) : List (String × Option MemoryEntry) :=
  [("containerd.mem.current", mem.Usage),
   ("containerd.mem.kernel_tcp", mem.KernelTCP),
   ("containerd.mem.kernel", mem.Kernel),
   ("containerd.mem.swap", mem.Swap)]

/-- The function `computeMem`: the loop over `memList`, then the six gauges.
The reads `mem.Usage.Usage` and `mem.Kernel.Usage` go through the entry
pointers; the arguments of a call are evaluated before the call, so a gauge
whose argument panics is not sent. -/
def computeMem (mem : MemoryStat) (tags : List String) : Outcome :=
  (Outcome.seq ((memList mem).map fun p => parseAndSubmitMem p.1 p.2 tags)).andThen
    (let first :=
      [gauge "containerd.mem.cache" mem.Cache tags,
       gauge "containerd.mem.rss" mem.RSS tags,
       gauge "containerd.mem.rsshuge" mem.RSSHuge tags]
    match mem.Usage with
    | none => Outcome.panic first
    | some usage =>
      match mem.Kernel with
      | none => Outcome.panic (first ++ [gauge "containerd.mem.usage" usage.Usage tags])
      | some kernel =>
        Outcome.done
          (first ++
            [gauge "containerd.mem.usage" usage.Usage tags,
             gauge "containerd.mem.kernel.usage" kernel.Usage tags,
             gauge "containerd.mem.dirty" mem.Dirty tags]))

/-- The function `computeCPU`; the reads go through the `Usage` and
`Throttling` pointers. -/
def computeCPU (cpu : CPUStat) (tags : List String) : Outcome :=
  match cpu.Usage with
  | none => Outcome.panic []
  | some usage =>
    let first :=
      [gauge "containerd.cpu.system" usage.Kernel tags,
       gauge "containerd.cpu.total" usage.Total tags,
       gauge "containerd.cpu.user" usage.User tags]
    match cpu.Throttling with
    | none => Outcome.panic first
    | some throttling =>
      Outcome.done (first ++ [gauge "containerd.cpu.throttle.periods" throttling.Periods tags])

/-- The tags `blkiotags` built for one entry. -/
def blkiotags (m : BlkIOEntry) : List String :=
  ["dev:" ++ m.Device] ++ (if m.Op ≠ "" then ["operation:" ++ m.Op] else [])

/-- The function `parseAndSubmitBlkio`. The assignment
`tags = append(tags, blkiotags...)` updates the local `tags`, which the next
turn of the loop reads. -/
def parseAndSubmitBlkio (metricName : String) :
    List BlkIOEntry → List String → List Gauge
  | [], _ => []
  | m :: rest, tags =>
    if m.Size = 0 then parseAndSubmitBlkio metricName rest tags
    else
      let tags := tags ++ blkiotags m
      gauge metricName m.Value tags :: parseAndSubmitBlkio metricName rest tags

/-- The map `blkioList` of `computeBlkio`, in the order of the map literal. -/
def blkioList (blkio : BlkIOStat) : List (String × List BlkIOEntry) :=
  [("containerd.blkio.merged_recursive", blkio.IoMergedRecursive),
   ("containerd.blkio.queued_recursive", blkio.IoQueuedRecursive),
   ("containerd.blkio.sectors_recursive", blkio.SectorsRecursive),
   ("containerd.blkio.service_recursive_bytes", blkio.IoServiceBytesRecursive),
   ("containerd.blkio.time_recursive", blkio.IoTimeRecursive),
   ("containerd.blkio.serviced_recursive", blkio.IoServicedRecursive),
   ("containerd.blkio.wait_time_recursive", blkio.IoWaitTimeRecursive),
   ("containerd.blkio.service_time_recursive", blkio.IoServiceTimeRecursive)]

/-- The function `computeBlkio`. -/
def computeBlkio (blkio : BlkIOStat) (tags : List String) : List Gauge :=
  (blkioList blkio).flatMap fun p => parseAndSubmitBlkio p.1 p.2 tags

/-- Lines 203 to 205 of `computeMetrics`: the memory gauges. The condition
calls `metrics.Memory.Size()` through the pointer and panics when it is nil. -/
def memoryStep (metrics : Metrics) (tags : List String) : Outcome :=
  match metrics.Memory with
  | none => Outcome.panic []
  | some mem => if mem.Size > 0 then computeMem mem tags else Outcome.done []

/-- Lines 207 to 209 of `computeMetrics`: the CPU gauges. The condition reads
`metrics.CPU.Throttling` through the pointer `metrics.CPU`. -/
def cpuStep (metrics : Metrics) (tags : List String) : Outcome :=
  match metrics.CPU with
  | none => Outcome.panic []
  | some cpu =>
    if cpu.Throttling ≠ none ∧ cpu.Usage ≠ none then computeCPU cpu tags
    else Outcome.done []

/-- Lines 211 to 213 of `computeMetrics`: the blkio gauges. The condition
calls `metrics.Blkio.Size()` through the pointer and panics when it is nil. -/
def blkioStep (metrics : Metrics) (tags : List String) : Outcome :=
  match metrics.Blkio with
  | none => Outcome.panic []
  | some blkio =>
    if blkio.Size > 0 then Outcome.done (computeBlkio blkio tags) else Outcome.done []

/-- Lines 215 to 217 of `computeMetrics`: the hugetlb gauges. -/
def hugetlbStep (metrics : Metrics) (tags : List String) : Outcome :=
  if metrics.Hugetlb.length > 0 then Outcome.done (computeHugetlb metrics.Hugetlb tags)
  else Outcome.done []

/-- The emission step of `computeMetrics`, lines 203 to 217: the gauges sent
for a decoded snapshot and an assembled tag set. -/
def emitSnapshot (metrics : Metrics) (tags : List String) : Outcome :=
  (memoryStep metrics tags).andThen
    ((cpuStep metrics tags).andThen
      ((blkioStep metrics tags).andThen (hugetlbStep metrics tags)))

/-! ## Containers, tasks and decoding -/

/-- A `containerd.Image`: its name and the result of `Size(ctx)`. -/
structure Image where
  Name : String
  Size : Except String Int

/-- The payload `metricTask.Data`: a type identifier and the encoded bytes. -/
structure Any where
  TypeUrl : String
  Value : List Nat

/-- A `containerd.Task`: the result of `Metrics(ctx)`. -/
structure Task where
  Metrics : Except String Any

/-- A `containerd.Container` as the check sees it: its ID and the results of
`Task`, `Image`, `Labels` and `Info` (of which the runtime name is read). The
labels are listed in the order in which `range labels` yields them. -/
structure Container where
  ID : String
  Task : Except String Task
  Image : Except String Image
  Labels : Except String (List (String × String))
  Info : Except String String

/-- The value `typeurl.UnmarshalAny` decodes: a `*cgroups.Metrics` or a value
of another registered type. -/
inductive Decoded where
  | metrics (m : Metrics)
  | other

/-- Modelled from the spec: the registry of `typeurl`, which is not among the
sources, as a mapping from type identifiers to decode functions. -/
abbrev Registry := String → Option (List Nat → Except String Decoded)

/-- Modelled from the spec: `typeurl.UnmarshalAny`. Decoding an unregistered
type identifier fails with a "not found" error; a registered one is decoded by
its decode function. -/
def unmarshalAny (registry : Registry) (any : Any) : Except String Decoded :=
  match registry any.TypeUrl with
  | none => Except.error ("type with url " ++ any.TypeUrl ++ ": not found")
  | some decode => decode any.Value

/-- The result of `convertTasktoMetrics`: a snapshot and no error, an error and
no snapshot, or a panic of the type assertion `metricAny.(*cgroups.Metrics)`. -/
inductive Converted where
  | ok (m : Metrics)
  | err (e : String)
  | fault

/-- The function `convertTasktoMetrics`. -/
def convertTasktoMetrics (registry : Registry) (task : Task) : Converted :=
  match task.Metrics with
  | Except.error e => Converted.err e
  | Except.ok metricTask =>
    match unmarshalAny registry metricTask with
    | Except.error e => Converted.err e
    | Except.ok (Decoded.metrics m) => Converted.ok m
    | Except.ok Decoded.other => Converted.fault

/-- The function `computeExtra`: the gauges it sends and the error it
returns. -/
def computeExtra (ctn : Container) (tags : List String) : List Gauge × Option String :=
  match ctn.Image with
  | Except.error e => ([], some e)
  | Except.ok img =>
    match img.Size with
    | Except.error e => ([], some e)
    | Except.ok size =>
      ([{ name := "containerd.image.size", value := size, hostname := "", tags := tags }], none)

/-- The function `collectTags`: the tags and the error it returns. -/
def collectTags (ctn : Container) : List String × Option String :=
  match ctn.Image with
  | Except.error e => ([], some e)
  | Except.ok im =>
    let tags := ["image:" ++ im.Name]
    match ctn.Labels with
    | Except.error e => (tags, some e)
    | Except.ok labels =>
      let tags := tags ++ labels.map kvTag
      match ctn.Info with
      | Except.error e => (tags, some e)
      | Except.ok runtimeName => (tags ++ ["runtime:" ++ runtimeName], none)

/-- Whether the slice expression `s[:n]` panics: it does when `s` has fewer
than `n` bytes. -/
def slicePanics (s : String) (n : Nat) : Bool := decide (s.utf8ByteSize < n)

/-- The external collaborators of `computeMetrics`: the tag lookup and the
registry of payload types. -/
structure Env where
  tagger : Tagger
  registry : Registry

/-- The body of the loop of `computeMetrics` for one container, lines 173 to
217. The arguments of the log calls are evaluated, so `ctn.ID()[:12]` is. -/
def computeMetricsCtn (env : Env) (userTags : List String) (ctn : Container) : Outcome :=
  match ctn.Task with
  | Except.error _ =>
    if slicePanics ctn.ID 12 then Outcome.panic [] else Outcome.done []
  | Except.ok t =>
    let collected := collectTags ctn
    if collected.2.isSome ∧ slicePanics ctn.ID 12 then Outcome.panic []
    else
      let tags := collected.1 ++ userTags
      let looked := env.tagger ctn.ID false
      if looked.2.isSome then Outcome.done []
      else
        let tags := tags ++ looked.1
        match convertTasktoMetrics env.registry t with
        | Converted.fault => Outcome.panic []
        | Converted.err _ => Outcome.done []
        | Converted.ok metrics =>
          let extra := computeExtra ctn tags
          if extra.2.isSome ∧ slicePanics ctn.ID 12 then Outcome.panic extra.1
          else (Outcome.done extra.1).andThen (emitSnapshot metrics tags)

/-- The loop of `computeMetrics` over the containers. -/
def computeMetricsLoop (env : Env) (userTags : List String) : List Container → Outcome
  | [] => Outcome.done []
  | ctn :: rest =>
    (computeMetricsCtn env userTags ctn).andThen (computeMetricsLoop env userTags rest)

/-- The function `computeMetrics`; `containers` is the result of
`cu.Containers()`. -/
def computeMetrics (env : Env) (containers : Except String (List Container))
    (userTags : List String) : Outcome :=
  match containers with
  | Except.error _ => Outcome.done []
  | Except.ok ctns => computeMetricsLoop env userTags ctns

/-- The number of entries of nonzero size of a list. -/
def nonzeroCount (l : List BlkIOEntry) : Nat :=
  (l.filter fun m => decide (m.Size ≠ 0)).length

/-! ## Names, prefixes and the spec's view of the memory entries -/

/-- Whether the string `s` starts with `p`. -/
def hasPrefix (p s : String) : Bool := p.data.isPrefixOf s.data

/-- The names of the gauges `computeMem` can send. -/
def memNames : List String :=
  ["containerd.mem.current.usage", "containerd.mem.current.failcnt",
   "containerd.mem.current.limit", "containerd.mem.current.max",
   "containerd.mem.kernel_tcp.usage", "containerd.mem.kernel_tcp.failcnt",
   "containerd.mem.kernel_tcp.limit", "containerd.mem.kernel_tcp.max",
   "containerd.mem.kernel.usage", "containerd.mem.kernel.failcnt",
   "containerd.mem.kernel.limit", "containerd.mem.kernel.max",
   "containerd.mem.swap.usage", "containerd.mem.swap.failcnt",
   "containerd.mem.swap.limit", "containerd.mem.swap.max",
   "containerd.mem.cache", "containerd.mem.rss", "containerd.mem.rsshuge",
   "containerd.mem.usage", "containerd.mem.dirty"]

/-- The names of the gauges `computeCPU` can send. -/
def cpuNames : List String :=
  ["containerd.cpu.system", "containerd.cpu.total", "containerd.cpu.user",
   "containerd.cpu.throttle.periods"]

/-- The names of the gauges `computeBlkio` can send. -/
def blkioNames : List String :=
  ["containerd.blkio.merged_recursive", "containerd.blkio.queued_recursive",
   "containerd.blkio.sectors_recursive", "containerd.blkio.service_recursive_bytes",
   "containerd.blkio.time_recursive", "containerd.blkio.serviced_recursive",
   "containerd.blkio.wait_time_recursive", "containerd.blkio.service_time_recursive"]

/-- The names of the gauges `computeHugetlb` can send. -/
def hugetlbNames : List String :=
  ["containerd.hugetlb.max", "containerd.hugetlb.failcount", "containerd.hugetlb.usage"]

/-- The spec's words for one named memory entry: the four gauges `.usage`,
`.failcnt`, `.limit` and `.max` with the entry's values when the entry has
nonzero size, nothing for an absent or zero-size entry. -/
def memEntryGauges (metricName : String) (stat : Option MemoryEntry)
    (tags : List String) : List Gauge :=
  match stat with
  | none => []
  | some st =>
    if MemoryEntry.ptrSize (some st) ≠ 0 then
      [gauge (metricName ++ ".usage") st.Usage tags,
       gauge (metricName ++ ".failcnt") st.Failcnt tags,
       gauge (metricName ++ ".limit") st.Limit tags,
       gauge (metricName ++ ".max") st.Max tags]
    else []

/-- The spec's words for the tags of one blkio entry: `dev:<device>` and, when
the entry has an operation, `operation:<op>`. -/
def devOpTags (m : BlkIOEntry) : List String :=
  ["dev:" ++ m.Device] ++ (if m.Op ≠ "" then ["operation:" ++ m.Op] else [])

/-- The number of entries of nonzero size among some entry pointers. -/
def nonzeroEntries (l : List (Option MemoryEntry)) : Nat :=
  (l.filter fun e => decide (MemoryEntry.ptrSize e ≠ 0)).length

/-- The snapshot returned by `convertTasktoMetrics`, `none` being nil. -/
def Converted.snapshot : Converted → Option Metrics
  | Converted.ok m => some m
  | _ => none

/-- The error returned by `convertTasktoMetrics`, `none` being nil. -/
def Converted.error : Converted → Option String
  | Converted.err e => some e
  | _ => none

/-- Whether the topic of an event has the expected three segments. -/
def wellFormed (e : ContainerdEvent) : Bool :=
  decide ((stringsSplit e.Topic).length = 3)

/-! ## Event subscriber -/

/-- The connection state of the subscriber in the spec's data model. -/
inductive ConnectionState where
  | Idle
  | Streaming
  | Failed
  deriving DecidableEq, Repr

/-- Modelled from the spec: the `Subscriber` type is declared in a file that is
not among the sources. The spec's data model gives its state: the filters, the
buffer of raw events in arrival order, and the connection state. -/
structure Subscriber where
  Filters : List String
  buffer : List ContainerdEvent
  connectionState : ConnectionState
  deriving DecidableEq, Repr

/-- Modelled from the spec: `Subscriber.Flush`, which is not among the sources.
It drains the buffer: it returns the full current buffer contents in arrival
order and leaves the buffer empty; filters and connection state stay. -/
def Subscriber.Flush (s : Subscriber) (_nowUnix : Int) :
    List ContainerdEvent × Subscriber :=
  (s.buffer, { s with buffer := [] })

/-! ## Sample inputs -/

/-- A snapshot whose Memory and Blkio sub-structures are present and
zero-valued, whose Hugetlb list is empty and whose CPU counters are all `n`. -/
def cpuSnapshot (n : Nat) : Metrics :=
  { Hugetlb := []
    CPU := some { Usage := some { Total := n, Kernel := n, User := n }
                  Throttling := some { Periods := n } }
    Memory := some { Cache := 0, RSS := 0, RSSHuge := 0, Dirty := 0,
                     Usage := none, Swap := none, Kernel := none, KernelTCP := none }
    Blkio := some { IoServiceBytesRecursive := [], IoServicedRecursive := [],
                    IoQueuedRecursive := [], IoServiceTimeRecursive := [],
                    IoWaitTimeRecursive := [], IoMergedRecursive := [],
                    IoTimeRecursive := [], SectorsRecursive := [] } }

/-- The snapshot `cpuSnapshot n` with two entries, a read and a write on the
device sda, in the service-bytes list of its Blkio sub-structure. -/
def blkioSnapshot (n : Nat) : Metrics :=
  { cpuSnapshot n with
    Blkio := some { IoServiceBytesRecursive :=
                      [{ Op := "Read", Device := "sda", Major := 8, Minor := 0, Value := 10 },
                       { Op := "Write", Device := "sda", Major := 8, Minor := 0, Value := 20 }],
                    IoServicedRecursive := [],
                    IoQueuedRecursive := [], IoServiceTimeRecursive := [],
                    IoWaitTimeRecursive := [], IoMergedRecursive := [],
                    IoTimeRecursive := [], SectorsRecursive := [] } }

/-- A decode function that stands in for the protobuf decoder: the empty
payload gives the snapshot with every sub-structure absent, the one-byte
payload `[n]` gives `cpuSnapshot n`, and a longer payload starting with `n`
gives `blkioSnapshot n`. -/
def sampleDecode : List Nat → Except String Decoded
  | [] => Except.ok (Decoded.metrics Metrics.empty)
  | [n] => Except.ok (Decoded.metrics (cpuSnapshot n))
  | n :: _ :: _ => Except.ok (Decoded.metrics (blkioSnapshot n))

/-- A registry holding the type `io.containerd.cgroups.v1.Metrics`, as the test
registers it, with the sample decode function. -/
def sampleRegistry : Registry := fun url =>
  if url = "io.containerd.cgroups.v1.Metrics" then some sampleDecode else none

/-- A tag lookup that succeeds with one tag, and the sample registry. -/
def sampleEnv : Env :=
  { tagger := fun _ _ => (["kube_namespace:default"], none)
    registry := sampleRegistry }

/-- A container on which every call succeeds. -/
def healthyCtn : Container :=
  { ID := "0123456789abcdef"
    Task :=
      Except.ok
        { Metrics :=
            Except.ok { TypeUrl := "io.containerd.cgroups.v1.Metrics", Value := [7] } }
    Image := Except.ok { Name := "redis", Size := Except.ok 5 }
    Labels := Except.ok [("foo", "bar")]
    Info := Except.ok "containerd" }

/-- A container whose labels cannot be fetched; every other call succeeds. -/
def labelsFailCtn : Container :=
  { healthyCtn with Labels := Except.error "labels unavailable" }

/-- A container with a short ID and no task. -/
def shortIDNoTaskCtn : Container :=
  { healthyCtn with ID := "web", Task := Except.error "no running task found" }

/-- A container with a long ID and no task; its image and the image size can
be fetched. -/
def noTaskCtn : Container :=
  { healthyCtn with Task := Except.error "no running task found" }

/-- A container with a short ID whose image size cannot be queried; every
other call succeeds. -/
def shortIDNoSizeCtn : Container :=
  { healthyCtn with
    ID := "web"
    Image := Except.ok { Name := "redis", Size := Except.error "size unavailable" } }

/-- A container with a short ID whose labels cannot be fetched; every other
call succeeds. -/
def shortIDLabelsFailCtn : Container :=
  { healthyCtn with ID := "web", Labels := Except.error "labels unavailable" }

/-- A container on which every call succeeds and whose snapshot has blkio
entries. -/
def blkioCtn : Container :=
  { healthyCtn with
    Task :=
      Except.ok
        { Metrics :=
            Except.ok { TypeUrl := "io.containerd.cgroups.v1.Metrics", Value := [7, 1] } } }

/-- A Memory sub-structure whose current and kernel entries are present and
zero-valued and whose kernel_tcp and swap entries are absent. -/
def absentEntriesMem : MemoryStat :=
  { Cache := 100, RSS := 0, RSSHuge := 0, Dirty := 0,
    Usage := some { Limit := 0, Usage := 0, Max := 0, Failcnt := 0 },
    Swap := none,
    Kernel := some { Limit := 0, Usage := 0, Max := 0, Failcnt := 0 },
    KernelTCP := none }

/-- A snapshot with `Memory{Cache: 100}`, whose entries are nil, and a CPU
sub-structure with usage and throttling present. -/
def cacheOnlyCpuSnapshot : Metrics :=
  { Hugetlb := []
    CPU := some { Usage := some { Total := 3, Kernel := 1, User := 2 }
                  Throttling := some { Periods := 4 } }
    Memory := some { Cache := 100, RSS := 0, RSSHuge := 0, Dirty := 0,
                     Usage := none, Swap := none, Kernel := none, KernelTCP := none }
    Blkio := none }

/-! ## Properties of the event normaliser -/

/-- An event whose topic does not split into three segments gives no record. -/
theorem computeEvent_malformed (tagger : Tagger) (hostname : String)
    (userTags : List String) (e : ContainerdEvent)
    (h : (stringsSplit e.Topic).length ≠ 3) :
    computeEvent tagger hostname userTags e = [] := by
  unfold computeEvent
  split
  · next heq => simp [heq] at h
  · rfl

/-- The record of an event whose topic splits into three segments. -/
theorem computeEvent_wellformed (tagger : Tagger) (hostname : String)
    (userTags : List String) (e : ContainerdEvent) (a category b : String)
    (h : stringsSplit e.Topic = [a, category, b]) :
    computeEvent tagger hostname userTags e =
      [{ Priority := EventPriority.normal
         Host := hostname
         SourceTypeName := containerdCheckName
         EventType := containerdCheckName
         AggregationKey := "containerd:" ++ e.Topic
         Text := e.Message
         Tags :=
           if category = "containers" ∨ category = "tasks" then
             e.Extra.map kvTag ++ userTags ++ (tagger e.ID true).1
           else e.Extra.map kvTag ++ userTags
         Ts := e.Timestamp
         Title := "Event on " ++ category ++ " from Containerd" }] := by
  unfold computeEvent
  rw [h]

/-- C1: when no event of the list has a topic that splits on '/' into exactly
three segments, `computeEvents` sends no record, whatever the hostname, the
user tags and the tag lookup. -/
theorem computeEvents_malformed_none (tagger : Tagger) (hostname : String)
    (events : List ContainerdEvent) (userTags : List String)
    (h : ∀ e ∈ events, (stringsSplit e.Topic).length ≠ 3) :
    computeEvents tagger hostname events userTags = [] := by
  unfold computeEvents
  rw [List.flatMap_eq_nil_iff]
  intro e he
  exact computeEvent_malformed tagger hostname userTags e (h e he)

/-- The two malformed topics of the test "Events on wrong type", of 4 and 2
segments, together give 0 records. -/
theorem computeEvents_malformed_none_witness :
    computeEvents (fun _ _ => (["x"], none)) "baz"
        [{ ID := "", Timestamp := 0, Topic := "/containers/delete/extra",
           Message := "", Extra := [] },
         { ID := "", Timestamp := 0, Topic := "containers/delete",
           Message := "", Extra := [] }] ["test"] = [] :=
  computeEvents_malformed_none (fun _ _ => (["x"], none)) "baz"
    [{ ID := "", Timestamp := 0, Topic := "/containers/delete/extra",
       Message := "", Extra := [] },
     { ID := "", Timestamp := 0, Topic := "containers/delete",
       Message := "", Extra := [] }] ["test"] (by decide)

/-- C2: an event whose topic splits into three segments, the second being
neither "containers" nor "tasks", gives exactly one record: title
"Event on <category> from Containerd", aggregation key "containerd:<topic>",
text the message, host the hostname, timestamp the Unix time of the event, and
tags one "key:value" per extra entry followed by the user tags; the tag lookup
contributes nothing. -/
theorem computeEvents_other_category (tagger : Tagger) (hostname : String)
    (userTags : List String) (e : ContainerdEvent) (a category b : String)
    (hsplit : stringsSplit e.Topic = [a, category, b])
    (hc : category ≠ "containers") (ht : category ≠ "tasks") :
    computeEvents tagger hostname [e] userTags =
      [{ Title := "Event on " ++ category ++ " from Containerd"
         Text := e.Message
         Ts := e.Timestamp
         Priority := EventPriority.normal
         Host := hostname
         Tags := e.Extra.map kvTag ++ userTags
         AggregationKey := "containerd:" ++ e.Topic
         SourceTypeName := "containerd"
         EventType := "containerd" }] := by
  unfold computeEvents
  rw [List.flatMap_singleton, computeEvent_wellformed tagger hostname userTags e a category b hsplit]
  simp [hc, ht, containerdCheckName]

/-- The event of the test "Low cardinality Event": topic "/images/update". -/
theorem computeEvents_other_category_witness :
    computeEvents (fun _ _ => (["looked:up"], none)) "baz"
        [{ ID := "xxx", Timestamp := 1540000000, Topic := "/images/update",
           Message := "Image yyy  updated", Extra := [("foo", "baz")] }] ["test"] =
      [{ Title := "Event on images from Containerd"
         Text := "Image yyy  updated"
         Ts := 1540000000
         Priority := EventPriority.normal
         Host := "baz"
         Tags := ["foo:baz", "test"]
         AggregationKey := "containerd:/images/update"
         SourceTypeName := "containerd"
         EventType := "containerd" }] :=
  computeEvents_other_category (fun _ _ => (["looked:up"], none)) "baz" ["test"]
    { ID := "xxx", Timestamp := 1540000000, Topic := "/images/update",
      Message := "Image yyy  updated", Extra := [("foo", "baz")] }
    "" "images" "update" (by decide) (by decide) (by decide)

/-- C3: an event whose topic splits into three segments, the second being
"containers" or "tasks", gives exactly one record whether or not the lookup of
the event's ID reports an error; its tags are the extra-entry tags, then the
user tags, then the tags the lookup returned. -/
theorem computeEvents_tagged_category (tagger : Tagger) (hostname : String)
    (userTags : List String) (e : ContainerdEvent) (a category b : String)
    (hsplit : stringsSplit e.Topic = [a, category, b])
    (hcat : category = "containers" ∨ category = "tasks") :
    computeEvents tagger hostname [e] userTags =
      [{ Title := "Event on " ++ category ++ " from Containerd"
         Text := e.Message
         Ts := e.Timestamp
         Priority := EventPriority.normal
         Host := hostname
         Tags := e.Extra.map kvTag ++ userTags ++ (tagger e.ID true).1
         AggregationKey := "containerd:" ++ e.Topic
         SourceTypeName := "containerd"
         EventType := "containerd" }] := by
  unfold computeEvents
  rw [List.flatMap_singleton, computeEvent_wellformed tagger hostname userTags e a category b hsplit]
  simp [hcat, containerdCheckName]

/-- The event of the test "High cardinality Events with one invalid", with a
lookup that fails and returns no tag. -/
theorem computeEvents_tagged_category_witness :
    computeEvents (fun _ _ => ([], some "entity not found")) "baz"
        [{ ID := "xxx", Timestamp := 1540000000, Topic := "/containers/delete",
           Message := "Container xxx  deleted", Extra := [("foo", "bar")] }] ["test"] =
      [{ Title := "Event on containers from Containerd"
         Text := "Container xxx  deleted"
         Ts := 1540000000
         Priority := EventPriority.normal
         Host := "baz"
         Tags := ["foo:bar", "test"]
         AggregationKey := "containerd:/containers/delete"
         SourceTypeName := "containerd"
         EventType := "containerd" }] :=
  computeEvents_tagged_category (fun _ _ => ([], some "entity not found")) "baz" ["test"]
    { ID := "xxx", Timestamp := 1540000000, Topic := "/containers/delete",
      Message := "Container xxx  deleted", Extra := [("foo", "bar")] }
    "" "containers" "delete" (by decide) (Or.inl rfl)

/-! ## Properties of the metrics normaliser -/

/-- C4: on the snapshot whose sub-structures are all absent, the one decoded
from a registered zero-valued payload, the emission step of `computeMetrics`
sends no gauge and panics: the memory condition on line 203 calls
`metrics.Memory.Size()` through the nil pointer `metrics.Memory`, and the CPU
condition on line 207 would read `metrics.CPU.Throttling` through the nil
pointer `metrics.CPU`. -/
theorem emitSnapshot_empty_panics (tags : List String) :
    emitSnapshot Metrics.empty tags = Outcome.panic [] ∧
      memoryStep Metrics.empty tags = Outcome.panic [] ∧
      cpuStep Metrics.empty tags = Outcome.panic [] := by
  exact ⟨rfl, rfl, rfl⟩

/-- C5: on `Memory{Cache: 100}`, whose four entries are nil, `computeMem`
panics in the first turn of its loop, where `parseAndSubmitMem` calls
`stat.Size()` through a nil entry (line 311), whichever entry the loop visits
first: none of the six gauges is sent. -/
theorem computeMem_cache_only_panics (tags : List String) :
    computeMem
        { Cache := 100, RSS := 0, RSSHuge := 0, Dirty := 0,
          Usage := none, Swap := none, Kernel := none, KernelTCP := none } tags =
      Outcome.panic [] := by
  rfl

/-- C6: on a list of two entries of nonzero size, the gauge of the second
entry carries the device tag of the first entry as well as its own. -/
theorem parseAndSubmitBlkio_tags_accumulate :
    parseAndSubmitBlkio "containerd.blkio.time_recursive"
        [{ Op := "", Device := "sda", Major := 8, Minor := 0, Value := 1 },
         { Op := "Read", Device := "sdb", Major := 8, Minor := 16, Value := 2 }]
        ["image:redis"] =
      [gauge "containerd.blkio.time_recursive" 1 ["image:redis", "dev:sda"],
       gauge "containerd.blkio.time_recursive" 2
         ["image:redis", "dev:sda", "dev:sdb", "operation:Read"]] := by
  decide

/-- The names and values of the gauges of `parseAndSubmitBlkio`: one per entry
of nonzero size, in list order. -/
theorem parseAndSubmitBlkio_names_values (metricName : String) (list : List BlkIOEntry) :
    ∀ tags : List String,
      (parseAndSubmitBlkio metricName list tags).map (fun g => (g.name, g.value)) =
        (list.filter fun m => decide (m.Size ≠ 0)).map
          fun m => (metricName, (m.Value : Int)) := by
  induction list with
  | nil => intro tags; rfl
  | cons m rest ih =>
    intro tags
    by_cases hm : m.Size = 0
    · simp [parseAndSubmitBlkio, hm, ih]
    · simp [parseAndSubmitBlkio, hm, ih, gauge]

/-- The number of gauges of `parseAndSubmitBlkio`. -/
theorem parseAndSubmitBlkio_length (metricName : String) (list : List BlkIOEntry)
    (tags : List String) :
    (parseAndSubmitBlkio metricName list tags).length = nonzeroCount list := by
  have h := congrArg List.length (parseAndSubmitBlkio_names_values metricName list tags)
  simpa [nonzeroCount] using h

/-- C7: `parseAndSubmitBlkio` sends exactly one gauge per entry of nonzero
size, in list order, with the metric name and the entry's value, and none for
an entry of size zero; a list of one zero-size and one nonzero entry gives one
gauge; and `computeBlkio` sends as many gauges as there are entries of nonzero
size in the eight recursive lists. -/
theorem blkio_one_gauge_per_nonzero_entry (metricName : String) (list : List BlkIOEntry)
    (tags : List String) (op dev : String) (major minor v : Nat) (blkio : BlkIOStat) :
    (parseAndSubmitBlkio metricName list tags).map (fun g => (g.name, g.value)) =
        (list.filter fun m => decide (m.Size ≠ 0)).map
          (fun m => (metricName, (m.Value : Int))) ∧
      (parseAndSubmitBlkio metricName
          [{ Op := "", Device := "", Major := 0, Minor := 0, Value := 0 },
           { Op := op, Device := dev, Major := major, Minor := minor, Value := v + 1 }]
          tags).length = 1 ∧
      (computeBlkio blkio tags).length =
        nonzeroCount blkio.IoMergedRecursive + nonzeroCount blkio.IoQueuedRecursive +
          nonzeroCount blkio.SectorsRecursive + nonzeroCount blkio.IoServiceBytesRecursive +
          nonzeroCount blkio.IoTimeRecursive + nonzeroCount blkio.IoServicedRecursive +
          nonzeroCount blkio.IoWaitTimeRecursive + nonzeroCount blkio.IoServiceTimeRecursive := by
  refine ⟨parseAndSubmitBlkio_names_values metricName list tags, ?_, ?_⟩
  · simp [parseAndSubmitBlkio_length, nonzeroCount, BlkIOEntry.Size, nzNat, nzStr]
  · simp [computeBlkio, blkioList, parseAndSubmitBlkio_length]
    omega

/-! ## Properties of the loop over the containers -/

/-- A run that sent nothing and completed leaves what follows unchanged. -/
theorem Outcome.done_nil_andThen (b : Outcome) : (Outcome.done []).andThen b = b := by
  simp [Outcome.andThen, Outcome.done]

/-- What follows a panic does not run. -/
theorem Outcome.panic_andThen (gs : List Gauge) (b : Outcome) :
    (Outcome.panic gs).andThen b = Outcome.panic gs := by
  simp [Outcome.andThen, Outcome.panic]

/-- The gauges of a sequence, when its first part sent none. -/
theorem Outcome.andThen_gauges_nil (a b : Outcome) (h : a.gauges = []) (hb : b.gauges = []) :
    (a.andThen b).gauges = [] := by
  unfold Outcome.andThen
  split <;> simp [h, hb]

/-- The gauges of a run that sends `gs`, then runs `e` to completion, then
runs `r`. -/
theorem Outcome.gauges_done_andThen_andThen (gs : List Gauge) (e r : Outcome)
    (he : e.fault = false) :
    (((Outcome.done gs).andThen e).andThen r).gauges = gs ++ e.gauges ++ r.gauges := by
  simp [Outcome.andThen, Outcome.done, he]

/-- Decoding a payload whose type identifier is not registered returns an
error. -/
theorem convertTasktoMetrics_unregistered (registry : Registry) (task : Task) (any : Any)
    (hm : task.Metrics = Except.ok any) (hr : registry any.TypeUrl = none) :
    convertTasktoMetrics registry task =
      Converted.err ("type with url " ++ any.TypeUrl ++ ": not found") := by
  simp [convertTasktoMetrics, hm, unmarshalAny, hr]

/-- C8: a container whose task retrieval fails, or for which the tag lookup on
its ID fails, or whose payload fails to decode (an unregistered payload type
included), gets no gauge at all from `computeMetrics`, not even
containerd.image.size. -/
theorem computeMetrics_failed_container_no_gauge (env : Env) (userTags : List String)
    (ctn : Container)
    (h : (∃ e, ctn.Task = Except.error e) ∨
         (env.tagger ctn.ID false).2.isSome = true ∨
         (∃ t e, ctn.Task = Except.ok t ∧
            convertTasktoMetrics env.registry t = Converted.err e) ∨
         (∃ t any, ctn.Task = Except.ok t ∧ t.Metrics = Except.ok any ∧
            env.registry any.TypeUrl = none)) :
    (computeMetricsCtn env userTags ctn).gauges = [] ∧
      (computeMetrics env (Except.ok [ctn]) userTags).gauges = [] := by
  have hbody : (computeMetricsCtn env userTags ctn).gauges = [] := by
    rcases h with ⟨e, he⟩ | ht | ⟨t, e, hk, hc⟩ | ⟨t, any, hk, hm, hr⟩
    · unfold computeMetricsCtn
      rw [he]
      dsimp only
      split <;> rfl
    · unfold computeMetricsCtn
      split
      · split <;> rfl
      · dsimp only
        split
        · rfl
        · simp [ht, Outcome.done]
    · unfold computeMetricsCtn
      rw [hk]
      dsimp only
      split
      · rfl
      · split
        · rfl
        · rw [hc]
          rfl
    · have hc := convertTasktoMetrics_unregistered env.registry t any hm hr
      unfold computeMetricsCtn
      rw [hk]
      dsimp only
      split
      · rfl
      · split
        · rfl
        · rw [hc]
          rfl
  refine ⟨hbody, ?_⟩
  simp only [computeMetrics, computeMetricsLoop]
  exact Outcome.andThen_gauges_nil _ _ hbody rfl

/-- A container with no task gets no gauge, although its image and its size
can be fetched. -/
theorem computeMetrics_failed_container_no_gauge_witness :
    (computeMetricsCtn sampleEnv ["test"] shortIDNoTaskCtn).gauges = [] ∧
      (computeMetrics sampleEnv (Except.ok [shortIDNoTaskCtn]) ["test"]).gauges = [] :=
  computeMetrics_failed_container_no_gauge sampleEnv ["test"] shortIDNoTaskCtn
    (Or.inl ⟨"no running task found", rfl⟩)

/-- C9, as stated, fails: `collectTags` returns an error for the container
whose labels cannot be fetched, and `computeMetrics` still sends gauges for
it. -/
theorem computeMetrics_collectTags_error_still_emits :
    (collectTags labelsFailCtn).2 = some "labels unavailable" ∧
      (computeMetrics sampleEnv (Except.ok [labelsFailCtn]) ["test"]).gauges ≠ [] := by
  decide

/-- C9, amended: when `collectTags` returns an error for a container whose ID
has at least 12 bytes and whose task retrieval, tag lookup and decoding
succeed, `computeMetrics` does not skip the container: it runs `computeExtra`
and the emission step on the snapshot with the tags collected before the
failing fetch, then the user tags, then the looked-up tags; and when the
emission step completes without panic, the gauges of the remaining containers
follow those of this one. -/
theorem computeMetrics_collectTags_error_proceeds (env : Env) (userTags : List String)
    (ctn : Container) (rest : List Container) (t : Task) (err : String)
    (looked : List String) (m : Metrics)
    (hid : 12 ≤ ctn.ID.utf8ByteSize)
    (htask : ctn.Task = Except.ok t)
    (_hcol : (collectTags ctn).2 = some err)
    (hlook : env.tagger ctn.ID false = (looked, none))
    (hconv : convertTasktoMetrics env.registry t = Converted.ok m) :
    computeMetricsCtn env userTags ctn =
        (Outcome.done (computeExtra ctn ((collectTags ctn).1 ++ userTags ++ looked)).1).andThen
          (emitSnapshot m ((collectTags ctn).1 ++ userTags ++ looked)) ∧
      ((emitSnapshot m ((collectTags ctn).1 ++ userTags ++ looked)).fault = false →
        (computeMetrics env (Except.ok (ctn :: rest)) userTags).gauges =
          (computeExtra ctn ((collectTags ctn).1 ++ userTags ++ looked)).1 ++
            (emitSnapshot m ((collectTags ctn).1 ++ userTags ++ looked)).gauges ++
            (computeMetrics env (Except.ok rest) userTags).gauges) := by
  have hs : slicePanics ctn.ID 12 = false := by
    simp [slicePanics, hid]
  have hbody : computeMetricsCtn env userTags ctn =
      (Outcome.done (computeExtra ctn ((collectTags ctn).1 ++ userTags ++ looked)).1).andThen
        (emitSnapshot m ((collectTags ctn).1 ++ userTags ++ looked)) := by
    unfold computeMetricsCtn
    rw [htask]
    simp [hs, hlook, hconv]
  refine ⟨hbody, ?_⟩
  intro hok
  simp only [computeMetrics, computeMetricsLoop]
  rw [hbody]
  exact Outcome.gauges_done_andThen_andThen _ _ _ hok

/-- The container whose labels cannot be fetched, followed by a healthy one:
both get their gauges, the first with the image tag only. -/
theorem computeMetrics_collectTags_error_proceeds_witness :
    computeMetricsCtn sampleEnv ["test"] labelsFailCtn =
        (Outcome.done (computeExtra labelsFailCtn
            ((collectTags labelsFailCtn).1 ++ ["test"] ++ ["kube_namespace:default"])).1).andThen
          (emitSnapshot (cpuSnapshot 7)
            ((collectTags labelsFailCtn).1 ++ ["test"] ++ ["kube_namespace:default"])) ∧
      (computeMetrics sampleEnv (Except.ok [labelsFailCtn, healthyCtn]) ["test"]).gauges =
        (computeExtra labelsFailCtn
            ((collectTags labelsFailCtn).1 ++ ["test"] ++ ["kube_namespace:default"])).1 ++
          (emitSnapshot (cpuSnapshot 7)
            ((collectTags labelsFailCtn).1 ++ ["test"] ++ ["kube_namespace:default"])).gauges ++
          (computeMetrics sampleEnv (Except.ok [healthyCtn]) ["test"]).gauges :=
  have h := computeMetrics_collectTags_error_proceeds sampleEnv ["test"] labelsFailCtn
    [healthyCtn]
    { Metrics := Except.ok { TypeUrl := "io.containerd.cgroups.v1.Metrics", Value := [7] } }
    "labels unavailable" ["kube_namespace:default"] (cpuSnapshot 7)
    (by decide) rfl rfl rfl rfl
  ⟨h.1, h.2 (by decide)⟩

/-- The gauges sent for the container whose labels cannot be fetched. -/
theorem computeMetrics_labelsFail_gauges :
    computeMetrics sampleEnv (Except.ok [labelsFailCtn]) ["test"] =
      Outcome.done
        [{ name := "containerd.image.size", value := 5, hostname := "",
           tags := ["image:redis", "test", "kube_namespace:default"] },
         gauge "containerd.cpu.system" 7 ["image:redis", "test", "kube_namespace:default"],
         gauge "containerd.cpu.total" 7 ["image:redis", "test", "kube_namespace:default"],
         gauge "containerd.cpu.user" 7 ["image:redis", "test", "kube_namespace:default"],
         gauge "containerd.cpu.throttle.periods" 7
           ["image:redis", "test", "kube_namespace:default"]] := by
  decide

/-- C10: a container with a 3-byte ID and no task, followed by a healthy
container. The run over the two panics on `ctn.ID()[:12]` in the first turn of
the loop and sends nothing, while the healthy container on its own gets five
gauges. -/
theorem computeMetrics_panic_suppresses_next :
    computeMetrics sampleEnv (Except.ok ([shortIDNoTaskCtn] ++ [healthyCtn])) ["test"] =
        Outcome.panic [] ∧
      (computeMetrics sampleEnv (Except.ok [shortIDNoTaskCtn]) ["test"]).gauges ++
          (computeMetrics sampleEnv (Except.ok [healthyCtn]) ["test"]).gauges =
        [{ name := "containerd.image.size", value := 5, hostname := "",
           tags := ["image:redis", "foo:bar", "runtime:containerd", "test",
                    "kube_namespace:default"] },
         gauge "containerd.cpu.system" 7
           ["image:redis", "foo:bar", "runtime:containerd", "test", "kube_namespace:default"],
         gauge "containerd.cpu.total" 7
           ["image:redis", "foo:bar", "runtime:containerd", "test", "kube_namespace:default"],
         gauge "containerd.cpu.user" 7
           ["image:redis", "foo:bar", "runtime:containerd", "test", "kube_namespace:default"],
         gauge "containerd.cpu.throttle.periods" 7
           ["image:redis", "foo:bar", "runtime:containerd", "test",
            "kube_namespace:default"]] := by
  decide

/-- The loop over a list of containers none of which panics is the
concatenation of the loops over its two parts. -/
theorem computeMetricsLoop_append (env : Env) (userTags : List String)
    (as bs : List Container) (h : (computeMetricsLoop env userTags as).fault = false) :
    (computeMetricsLoop env userTags (as ++ bs)).gauges =
      (computeMetricsLoop env userTags as).gauges ++
        (computeMetricsLoop env userTags bs).gauges := by
  induction as with
  | nil => simp [computeMetricsLoop, Outcome.done]
  | cons a rest ih =>
    have hstep : ∀ l, computeMetricsLoop env userTags (a :: l) =
        (computeMetricsCtn env userTags a).andThen (computeMetricsLoop env userTags l) :=
      fun _ => rfl
    rw [List.cons_append, hstep, hstep]
    rw [hstep] at h
    by_cases hf : (computeMetricsCtn env userTags a).fault = true
    · simp [Outcome.andThen, hf] at h
    · have hrest : (computeMetricsLoop env userTags rest).fault = false := by
        simpa [Outcome.andThen, hf] using h
      simp [Outcome.andThen, hf, ih hrest]

/-! ## Image size and tag assembly -/

/-- The body of the loop for a container whose task retrieval, tag lookup and
decoding succeed, when no log call panics: the gauges of `computeExtra`
followed by those of the emission step. -/
theorem computeMetricsCtn_reaches_emission (env : Env) (userTags : List String)
    (ctn : Container) (t : Task) (looked : List String) (m : Metrics)
    (hcol : (collectTags ctn).2 = none ∨ 12 ≤ ctn.ID.utf8ByteSize)
    (hext : (computeExtra ctn ((collectTags ctn).1 ++ userTags ++ looked)).2 = none ∨
      12 ≤ ctn.ID.utf8ByteSize)
    (htask : ctn.Task = Except.ok t)
    (hlook : env.tagger ctn.ID false = (looked, none))
    (hconv : convertTasktoMetrics env.registry t = Converted.ok m) :
    computeMetricsCtn env userTags ctn =
      (Outcome.done (computeExtra ctn ((collectTags ctn).1 ++ userTags ++ looked)).1).andThen
        (emitSnapshot m ((collectTags ctn).1 ++ userTags ++ looked)) := by
  have h1 : ¬ ((collectTags ctn).2.isSome = true ∧ slicePanics ctn.ID 12 = true) := by
    rcases hcol with h | h
    · simp [h]
    · simp [slicePanics, h]
  have h2 : ¬ ((computeExtra ctn ((collectTags ctn).1 ++ userTags ++ looked)).2.isSome = true ∧
      slicePanics ctn.ID 12 = true) := by
    rcases hext with h | h
    · rw [h]
      simp
    · simp [slicePanics, h]
  unfold computeMetricsCtn
  rw [htask]
  simp only [hlook, hconv]
  rw [if_neg h1]
  simp only [Option.isSome_none, Bool.false_eq_true, if_false]
  rw [if_neg h2]

/-- C11, as stated, fails: the image of the container without a task can be
fetched and its size is 5, and `computeMetrics` sends no gauge for it. -/
theorem computeMetrics_no_task_no_image_size :
    (computeExtra noTaskCtn []).1 =
        [{ name := "containerd.image.size", value := 5, hostname := "", tags := [] }] ∧
      computeMetrics sampleEnv (Except.ok [noTaskCtn]) ["test"] = Outcome.done [] := by
  decide

/-- C11, amended: for a container whose task retrieval, tag lookup and decoding
succeed and whose image and image size can be fetched, the first gauge sent is
containerd.image.size with the image size and the assembled tags, followed by
the gauges of the snapshot. -/
theorem computeMetrics_image_size_after_decode (env : Env) (userTags : List String)
    (ctn : Container) (t : Task) (looked : List String) (m : Metrics)
    (img : Image) (size : Int)
    (hcol : (collectTags ctn).2 = none ∨ 12 ≤ ctn.ID.utf8ByteSize)
    (htask : ctn.Task = Except.ok t)
    (hlook : env.tagger ctn.ID false = (looked, none))
    (hconv : convertTasktoMetrics env.registry t = Converted.ok m)
    (himg : ctn.Image = Except.ok img) (hsize : img.Size = Except.ok size) :
    (computeMetricsCtn env userTags ctn).gauges =
      { name := "containerd.image.size", value := size, hostname := "",
        tags := (collectTags ctn).1 ++ userTags ++ looked } ::
        (emitSnapshot m ((collectTags ctn).1 ++ userTags ++ looked)).gauges := by
  have hx : ∀ tags, computeExtra ctn tags =
      ([{ name := "containerd.image.size", value := size, hostname := "", tags := tags }],
        none) := by
    intro tags
    simp [computeExtra, himg, hsize]
  rw [computeMetricsCtn_reaches_emission env userTags ctn t looked m hcol
    (Or.inl (by rw [hx])) htask hlook hconv, hx]
  simp [Outcome.andThen, Outcome.done]

/-- The healthy container gets containerd.image.size = 5 first. -/
theorem computeMetrics_image_size_after_decode_witness :
    (computeMetricsCtn sampleEnv ["test"] healthyCtn).gauges =
      { name := "containerd.image.size", value := 5, hostname := "",
        tags := (collectTags healthyCtn).1 ++ ["test"] ++ ["kube_namespace:default"] } ::
        (emitSnapshot (cpuSnapshot 7)
          ((collectTags healthyCtn).1 ++ ["test"] ++ ["kube_namespace:default"])).gauges :=
  computeMetrics_image_size_after_decode sampleEnv ["test"] healthyCtn
    { Metrics := Except.ok { TypeUrl := "io.containerd.cgroups.v1.Metrics", Value := [7] } }
    ["kube_namespace:default"] _ { Name := "redis", Size := Except.ok 5 } 5
    (Or.inl rfl) rfl rfl rfl rfl rfl

/-- C12: for the container with the 3-byte ID whose task retrieval, tag lookup
and decoding succeed and whose image size query fails, the log call of the
`computeExtra` error branch evaluates `ctn.ID()[:12]` and panics: none of the
four CPU gauges that the emission step sends for its snapshot is sent. -/
theorem computeMetrics_extra_error_short_id_panics :
    (computeExtra shortIDNoSizeCtn []).2 = some "size unavailable" ∧
      computeMetrics sampleEnv (Except.ok [shortIDNoSizeCtn]) ["test"] = Outcome.panic [] ∧
      emitSnapshot (cpuSnapshot 7)
          ["image:redis", "foo:bar", "runtime:containerd", "test",
           "kube_namespace:default"] =
        Outcome.done
          [gauge "containerd.cpu.system" 7
             ["image:redis", "foo:bar", "runtime:containerd", "test",
              "kube_namespace:default"],
           gauge "containerd.cpu.total" 7
             ["image:redis", "foo:bar", "runtime:containerd", "test",
              "kube_namespace:default"],
           gauge "containerd.cpu.user" 7
             ["image:redis", "foo:bar", "runtime:containerd", "test",
              "kube_namespace:default"],
           gauge "containerd.cpu.throttle.periods" 7
             ["image:redis", "foo:bar", "runtime:containerd", "test",
              "kube_namespace:default"]] := by
  decide

/-- When `computeExtra` fails for a container whose ID has at least 12 bytes,
the gauges of the snapshot are sent all the same, and only they. -/
theorem computeMetricsCtn_extra_error_long_id (env : Env) (userTags : List String)
    (ctn : Container) (t : Task) (looked : List String) (m : Metrics) (err : String)
    (hid : 12 ≤ ctn.ID.utf8ByteSize)
    (htask : ctn.Task = Except.ok t)
    (hlook : env.tagger ctn.ID false = (looked, none))
    (hconv : convertTasktoMetrics env.registry t = Converted.ok m)
    (hext : (computeExtra ctn ((collectTags ctn).1 ++ userTags ++ looked)).2 = some err) :
    computeMetricsCtn env userTags ctn =
      emitSnapshot m ((collectTags ctn).1 ++ userTags ++ looked) := by
  have hnil : (computeExtra ctn ((collectTags ctn).1 ++ userTags ++ looked)).1 = [] := by
    revert hext
    unfold computeExtra
    split
    · intro _; rfl
    · split
      · intro _; rfl
      · intro h; simp at h
  rw [computeMetricsCtn_reaches_emission env userTags ctn t looked m (Or.inr hid)
    (Or.inr hid) htask hlook hconv, hnil, Outcome.done_nil_andThen]

/-- C13: `collectTags` returns "image:<name>", then one "<key>:<value>" per
label, then "runtime:<name>" and no error when the three fetches succeed, so
`len(labels) + 2` tags, and for labels {foo: bar}, image redis and runtime
containerd a permutation of the list the test expects; when a fetch fails it
returns the error with the tags accumulated before: none for the image, the
image tag for the labels, the image and label tags for the info. -/
theorem collectTags_order_and_partial (id : String) (task : Except String Task)
    (im : Image)
    (labelList : List (String × String)) (labels : Except String (List (String × String)))
    (runtimeName : String) (info : Except String String) (e : String) :
    collectTags { ID := id, Task := task, Image := Except.ok im,
                  Labels := Except.ok labelList, Info := Except.ok runtimeName } =
        (["image:" ++ im.Name] ++ labelList.map kvTag ++ ["runtime:" ++ runtimeName], none) ∧
      (collectTags { ID := id, Task := task, Image := Except.ok im,
                     Labels := Except.ok labelList,
                     Info := Except.ok runtimeName }).1.length = labelList.length + 2 ∧
      ((collectTags { ID := id, Task := task,
                      Image := Except.ok { Name := "redis", Size := im.Size },
                      Labels := Except.ok [("foo", "bar")],
                      Info := Except.ok "containerd" }).1.Perm
        ["runtime:containerd", "image:redis", "foo:bar"]) ∧
      collectTags { ID := id, Task := task, Image := Except.error e,
                    Labels := labels, Info := info } = ([], some e) ∧
      collectTags { ID := id, Task := task, Image := Except.ok im,
                    Labels := Except.error e, Info := info } =
        (["image:" ++ im.Name], some e) ∧
      collectTags { ID := id, Task := task, Image := Except.ok im,
                    Labels := Except.ok labelList, Info := Except.error e } =
        (["image:" ++ im.Name] ++ labelList.map kvTag, some e) := by
  refine ⟨rfl, ?_, ?_, rfl, rfl, rfl⟩
  · simp [collectTags]
  · show List.Perm ["image:" ++ "redis", kvTag ("foo", "bar"), "runtime:" ++ "containerd"]
      ["runtime:containerd", "image:redis", "foo:bar"]
    decide

/-! ## Names and tags of the gauges -/

/-- A gauge of a sequence comes from one of its two parts. -/
theorem Outcome.mem_andThen (a b : Outcome) (g : Gauge)
    (h : g ∈ (a.andThen b).gauges) : g ∈ a.gauges ∨ g ∈ b.gauges := by
  unfold Outcome.andThen at h
  split at h
  · exact Or.inl h
  · exact List.mem_append.mp h

/-- A sequence panics exactly when one of its two parts does. -/
theorem Outcome.andThen_fault (a b : Outcome) :
    (a.andThen b).fault = (a.fault || b.fault) := by
  unfold Outcome.andThen
  cases h : a.fault <;> simp [h]

/-- A gauge of a sequence of pieces of code comes from one of them. -/
theorem Outcome.mem_seq (l : List Outcome) (g : Gauge) (h : g ∈ (Outcome.seq l).gauges) :
    ∃ o ∈ l, g ∈ o.gauges := by
  induction l with
  | nil => simp [Outcome.seq, Outcome.done] at h
  | cons a rest ih =>
    rcases Outcome.mem_andThen a (Outcome.seq rest) g h with h | h
    · exact ⟨a, List.mem_cons_self _ _, h⟩
    · obtain ⟨o, ho, hgo⟩ := ih h
      exact ⟨o, List.mem_cons_of_mem _ ho, hgo⟩

/-- The gauges of `parseAndSubmitMem` for the four entries of `memList`. -/
theorem parseAndSubmitMem_kind (mem : MemoryStat) (tags : List String) (g : Gauge)
    (p : String × Option MemoryEntry) (hp : p ∈ memList mem)
    (hg : g ∈ (parseAndSubmitMem p.1 p.2 tags).gauges) :
    g.name ∈ memNames ∧ g.tags = tags := by
  simp only [memList, List.mem_cons, List.mem_singleton, List.not_mem_nil, or_false] at hp
  rcases hp with rfl | rfl | rfl | rfl <;>
    · unfold parseAndSubmitMem at hg
      dsimp only at hg
      split at hg
      · simp [Outcome.panic] at hg
      · split at hg
        · simp [Outcome.done] at hg
        · simp only [Outcome.done, List.mem_cons, List.mem_singleton, List.not_mem_nil,
            or_false] at hg
          rcases hg with rfl | rfl | rfl | rfl <;> exact ⟨by dsimp only [gauge]; decide, rfl⟩

/-- The gauges of `computeMem` have memory names and the tags handed in. -/
theorem computeMem_kind (mem : MemoryStat) (tags : List String) (g : Gauge)
    (hg : g ∈ (computeMem mem tags).gauges) :
    g.name ∈ memNames ∧ g.tags = tags := by
  unfold computeMem at hg
  rcases Outcome.mem_andThen _ _ g hg with h | h
  · obtain ⟨o, ho, hgo⟩ := Outcome.mem_seq _ g h
    obtain ⟨p, hp, rfl⟩ := List.mem_map.mp ho
    exact parseAndSubmitMem_kind mem tags g p hp hgo
  · dsimp only at h
    split at h
    · simp only [Outcome.panic, List.mem_cons, List.mem_singleton,
        List.not_mem_nil, or_false] at h
      rcases h with rfl | rfl | rfl
      all_goals exact ⟨by dsimp only [gauge]; decide, rfl⟩
    · split at h
      · simp only [Outcome.panic, List.mem_append, List.mem_cons, List.mem_singleton,
          List.not_mem_nil, or_false] at h
        rcases h with (rfl | rfl | rfl) | rfl
        all_goals exact ⟨by dsimp only [gauge]; decide, rfl⟩
      · simp only [Outcome.done, List.mem_append, List.mem_cons, List.mem_singleton,
          List.not_mem_nil, or_false] at h
        rcases h with (rfl | rfl | rfl) | rfl | rfl | rfl
        all_goals exact ⟨by dsimp only [gauge]; decide, rfl⟩

/-- The gauges of `computeCPU` have CPU names and the tags handed in, and both
sub-structures are present when one is sent with all four. -/
theorem computeCPU_kind (cpu : CPUStat) (tags : List String) (g : Gauge)
    (hg : g ∈ (computeCPU cpu tags).gauges) :
    g.name ∈ cpuNames ∧ g.tags = tags := by
  unfold computeCPU at hg
  split at hg
  · simp [Outcome.panic] at hg
  · dsimp only at hg
    split at hg
    · simp only [Outcome.panic, List.mem_cons, List.mem_singleton, List.not_mem_nil,
        or_false] at hg
      rcases hg with rfl | rfl | rfl <;> exact ⟨by dsimp only [gauge]; decide, rfl⟩
    · simp only [Outcome.done, List.mem_append, List.mem_cons, List.mem_singleton,
        List.not_mem_nil, or_false] at hg
      rcases hg with (rfl | rfl | rfl) | rfl <;> exact ⟨by dsimp only [gauge]; decide, rfl⟩

/-- The gauges of `parseAndSubmitBlkio` have the metric name, and their tags
start with the tags handed in. -/
theorem parseAndSubmitBlkio_kind (metricName : String) (list : List BlkIOEntry) :
    ∀ (tags : List String) (g : Gauge), g ∈ parseAndSubmitBlkio metricName list tags →
      g.name = metricName ∧ tags <+: g.tags := by
  induction list with
  | nil => intro tags g hg; simp [parseAndSubmitBlkio] at hg
  | cons m rest ih =>
    intro tags g hg
    unfold parseAndSubmitBlkio at hg
    split at hg
    · exact ih tags g hg
    · dsimp only at hg
      rcases List.mem_cons.mp hg with rfl | h
      · exact ⟨rfl, List.prefix_append _ _⟩
      · have := ih (tags ++ blkiotags m) g h
        exact ⟨this.1, (List.prefix_append _ _).trans this.2⟩

/-- The gauges of `computeBlkio` have blkio names, and their tags start with
the tags handed in. -/
theorem computeBlkio_kind (blkio : BlkIOStat) (tags : List String) (g : Gauge)
    (hg : g ∈ computeBlkio blkio tags) :
    g.name ∈ blkioNames ∧ tags <+: g.tags := by
  unfold computeBlkio at hg
  rcases List.mem_flatMap.mp hg with ⟨p, hp, hgp⟩
  have h := parseAndSubmitBlkio_kind p.1 p.2 tags g hgp
  refine ⟨?_, h.2⟩
  rw [h.1]
  simp only [blkioList, List.mem_cons, List.mem_singleton, List.not_mem_nil, or_false] at hp
  rcases hp with rfl | rfl | rfl | rfl | rfl | rfl | rfl | rfl <;> (dsimp only; decide)

/-- The gauges of `computeHugetlb` have hugetlb names and the tags handed
in. -/
theorem computeHugetlb_kind (huge : List HugetlbStat) (tags : List String) (g : Gauge)
    (hg : g ∈ computeHugetlb huge tags) :
    g.name ∈ hugetlbNames ∧ g.tags = tags := by
  unfold computeHugetlb at hg
  rcases List.mem_flatMap.mp hg with ⟨h, _, hgh⟩
  simp only [List.mem_cons, List.mem_singleton, List.not_mem_nil, or_false] at hgh
  rcases hgh with rfl | rfl | rfl <;> exact ⟨by dsimp only [gauge]; decide, rfl⟩

/-- Every gauge of the emission step is a memory gauge of a Memory of nonzero
size, a CPU gauge, a blkio gauge of a Blkio of nonzero size, or a hugetlb gauge
of a non-empty Hugetlb list; its tags are the tags handed in, followed for a
blkio gauge by device and operation tags. -/
theorem emitSnapshot_kind (m : Metrics) (tags : List String) (g : Gauge)
    (hg : g ∈ (emitSnapshot m tags).gauges) :
    (g.name ∈ memNames ∧ g.tags = tags ∧ 0 < MemoryStat.ptrSize m.Memory) ∨
      (g.name ∈ cpuNames ∧ g.tags = tags) ∨
      (g.name ∈ blkioNames ∧ tags <+: g.tags ∧ 0 < BlkIOStat.ptrSize m.Blkio ∧
        ∃ blkio, m.Blkio = some blkio ∧ g ∈ computeBlkio blkio tags) ∨
      (g.name ∈ hugetlbNames ∧ g.tags = tags ∧ m.Hugetlb ≠ []) := by
  unfold emitSnapshot at hg
  rcases Outcome.mem_andThen _ _ g hg with h | h
  · left
    unfold memoryStep at h
    split at h
    · simp [Outcome.done, Outcome.panic] at h
    · next mem hmem =>
      split at h
      · next hpos =>
        have := computeMem_kind mem tags g h
        exact ⟨this.1, this.2, by simpa [hmem, MemoryStat.ptrSize] using hpos⟩
      · simp [Outcome.done, Outcome.panic] at h
  · rcases Outcome.mem_andThen _ _ g h with h | h
    · right; left
      unfold cpuStep at h
      split at h
      · simp [Outcome.panic] at h
      · split at h
        · exact computeCPU_kind _ tags g h
        · simp [Outcome.done, Outcome.panic] at h
    · rcases Outcome.mem_andThen _ _ g h with h | h
      · right; right; left
        unfold blkioStep at h
        split at h
        · simp [Outcome.done, Outcome.panic] at h
        · next blkio hb =>
          split at h
          · next hpos =>
            have hmem : g ∈ computeBlkio blkio tags := by simpa [Outcome.done] using h
            have := computeBlkio_kind blkio tags g hmem
            exact ⟨this.1, this.2, by simpa [hb, BlkIOStat.ptrSize] using hpos,
              blkio, hb, hmem⟩
          · simp [Outcome.done, Outcome.panic] at h
      · right; right; right
        unfold hugetlbStep at h
        split at h
        · next hpos =>
          have := computeHugetlb_kind m.Hugetlb tags g (by simpa [Outcome.done] using h)
          refine ⟨this.1, this.2, ?_⟩
          intro hnil
          simp [hnil] at hpos
        · simp [Outcome.done, Outcome.panic] at h

/-- The gauge of `computeExtra` is containerd.image.size with the tags handed
in. -/
theorem computeExtra_kind (ctn : Container) (tags : List String) (g : Gauge)
    (hg : g ∈ (computeExtra ctn tags).1) :
    g.name = "containerd.image.size" ∧ g.tags = tags := by
  unfold computeExtra at hg
  split at hg
  · simp at hg
  · split at hg
    · simp at hg
    · simp only [List.mem_singleton] at hg
      rw [hg]
      exact ⟨rfl, rfl⟩

/-- Every gauge sent for a container is sent after its task was retrieved,
the tag lookup succeeded and its payload was decoded, by `computeExtra` or by
the emission step, with the assembled tags. -/
theorem computeMetricsCtn_origin (env : Env) (userTags : List String) (ctn : Container)
    (g : Gauge) (hg : g ∈ (computeMetricsCtn env userTags ctn).gauges) :
    ∃ t m, ctn.Task = Except.ok t ∧ convertTasktoMetrics env.registry t = Converted.ok m ∧
      (g ∈ (computeExtra ctn
              ((collectTags ctn).1 ++ userTags ++ (env.tagger ctn.ID false).1)).1 ∨
        g ∈ (emitSnapshot m
              ((collectTags ctn).1 ++ userTags ++ (env.tagger ctn.ID false).1)).gauges) := by
  unfold computeMetricsCtn at hg
  split at hg
  · split at hg <;> simp [Outcome.panic, Outcome.done] at hg
  · next t ht =>
    dsimp only at hg
    split at hg
    · simp [Outcome.panic] at hg
    · split at hg
      · simp [Outcome.done] at hg
      · split at hg
        · simp [Outcome.panic] at hg
        · simp [Outcome.done] at hg
        · next m hm =>
          refine ⟨t, m, ht, hm, ?_⟩
          split at hg
          · exact Or.inl hg
          · rcases Outcome.mem_andThen _ _ g hg with h | h
            · exact Or.inl h
            · exact Or.inr h

/-- No CPU, blkio, hugetlb or image size name starts with "containerd.mem.",
and likewise for the blkio and hugetlb prefixes; every blkio name starts with
"containerd.blkio.". -/
theorem name_prefixes :
    (∀ n ∈ "containerd.image.size" :: (cpuNames ++ blkioNames ++ hugetlbNames),
        hasPrefix "containerd.mem." n = false) ∧
      (∀ n ∈ "containerd.image.size" :: (memNames ++ cpuNames ++ hugetlbNames),
        hasPrefix "containerd.blkio." n = false) ∧
      (∀ n ∈ "containerd.image.size" :: (memNames ++ cpuNames ++ blkioNames),
        hasPrefix "containerd.hugetlb." n = false) ∧
      (∀ n ∈ blkioNames, hasPrefix "containerd.blkio." n = true) := by
  decide

/-- C14: for a container whose payload decodes to a snapshot, `computeMetrics`
sends no gauge whose name starts with "containerd.mem." when the Memory
sub-structure is absent or of size zero, none whose name starts with
"containerd.blkio." when the Blkio sub-structure is absent or of size zero, and
none whose name starts with "containerd.hugetlb." when the Hugetlb list is
empty. -/
theorem computeMetrics_zero_size_no_gauge (env : Env) (userTags : List String)
    (ctn : Container) (t : Task) (m : Metrics)
    (htask : ctn.Task = Except.ok t)
    (hconv : convertTasktoMetrics env.registry t = Converted.ok m) :
    (MemoryStat.ptrSize m.Memory = 0 →
        (computeMetricsCtn env userTags ctn).gauges.filter
          (fun g => hasPrefix "containerd.mem." g.name) = []) ∧
      (BlkIOStat.ptrSize m.Blkio = 0 →
        (computeMetricsCtn env userTags ctn).gauges.filter
          (fun g => hasPrefix "containerd.blkio." g.name) = []) ∧
      (m.Hugetlb = [] →
        (computeMetricsCtn env userTags ctn).gauges.filter
          (fun g => hasPrefix "containerd.hugetlb." g.name) = []) := by
  have horigin : ∀ g ∈ (computeMetricsCtn env userTags ctn).gauges,
      g.name = "containerd.image.size" ∨
        (g.name ∈ memNames ∧ 0 < MemoryStat.ptrSize m.Memory) ∨
        g.name ∈ cpuNames ∨
        (g.name ∈ blkioNames ∧ 0 < BlkIOStat.ptrSize m.Blkio) ∨
        (g.name ∈ hugetlbNames ∧ m.Hugetlb ≠ []) := by
    intro g hg
    obtain ⟨t', m', ht', hm', h⟩ := computeMetricsCtn_origin env userTags ctn g hg
    have htt : t' = t := by
      rw [htask] at ht'
      exact (Except.ok.inj ht').symm
    subst htt
    have hmm : m' = m := by
      rw [hconv] at hm'
      exact (Converted.ok.inj hm').symm
    subst hmm
    rcases h with h | h
    · exact Or.inl (computeExtra_kind ctn _ g h).1
    · rcases emitSnapshot_kind m' _ g h with h | h | h | h
      · exact Or.inr (Or.inl ⟨h.1, h.2.2⟩)
      · exact Or.inr (Or.inr (Or.inl h.1))
      · exact Or.inr (Or.inr (Or.inr (Or.inl ⟨h.1, h.2.2.1⟩)))
      · exact Or.inr (Or.inr (Or.inr (Or.inr ⟨h.1, h.2.2⟩)))
  obtain ⟨hmemP, hblkP, hhugeP, _⟩ := name_prefixes
  refine ⟨?_, ?_, ?_⟩
  · intro hz
    rw [List.filter_eq_nil_iff]
    intro g hg
    have hf : hasPrefix "containerd.mem." g.name = false := by
      rcases horigin g hg with h | h | h | h | h
      · exact hmemP _ (by rw [h]; exact List.mem_cons_self _ _)
      · omega
      · exact hmemP _ (List.mem_cons_of_mem _ (by simp [h]))
      · exact hmemP _ (List.mem_cons_of_mem _ (by simp [h.1]))
      · exact hmemP _ (List.mem_cons_of_mem _ (by simp [h.1]))
    simp [hf]
  · intro hz
    rw [List.filter_eq_nil_iff]
    intro g hg
    have hf : hasPrefix "containerd.blkio." g.name = false := by
      rcases horigin g hg with h | h | h | h | h
      · exact hblkP _ (by rw [h]; exact List.mem_cons_self _ _)
      · exact hblkP _ (List.mem_cons_of_mem _ (by simp [h.1]))
      · exact hblkP _ (List.mem_cons_of_mem _ (by simp [h]))
      · omega
      · exact hblkP _ (List.mem_cons_of_mem _ (by simp [h.1]))
    simp [hf]
  · intro hz
    rw [List.filter_eq_nil_iff]
    intro g hg
    have hf : hasPrefix "containerd.hugetlb." g.name = false := by
      rcases horigin g hg with h | h | h | h | h
      · exact hhugeP _ (by rw [h]; exact List.mem_cons_self _ _)
      · exact hhugeP _ (List.mem_cons_of_mem _ (by simp [h.1]))
      · exact hhugeP _ (List.mem_cons_of_mem _ (by simp [h]))
      · exact hhugeP _ (List.mem_cons_of_mem _ (by simp [h.1]))
      · exact absurd hz h.2
    simp [hf]

/-- The healthy container, whose snapshot has a zero-valued Memory, a Blkio
without entries and no Hugetlb entry, gets no memory, blkio or hugetlb gauge. -/
theorem computeMetrics_zero_size_no_gauge_witness :
    (computeMetricsCtn sampleEnv ["test"] healthyCtn).gauges.filter
          (fun g => hasPrefix "containerd.mem." g.name) = [] ∧
      (computeMetricsCtn sampleEnv ["test"] healthyCtn).gauges.filter
          (fun g => hasPrefix "containerd.blkio." g.name) = [] ∧
      (computeMetricsCtn sampleEnv ["test"] healthyCtn).gauges.filter
          (fun g => hasPrefix "containerd.hugetlb." g.name) = [] :=
  have h := computeMetrics_zero_size_no_gauge sampleEnv ["test"] healthyCtn
    { Metrics := Except.ok { TypeUrl := "io.containerd.cgroups.v1.Metrics", Value := [7] } }
    (cpuSnapshot 7) rfl rfl
  ⟨h.1 rfl, h.2.1 rfl, h.2.2 rfl⟩

/-! ## Memory entries and CPU -/

/-- For an entry that is present, `parseAndSubmitMem` completes and sends what
the spec lists for the entry. -/
theorem parseAndSubmitMem_present (metricName : String)
    (st : MemoryEntry) (tags : List String) :
    parseAndSubmitMem metricName (some st) tags =
      Outcome.done (memEntryGauges metricName (some st) tags) := by
  by_cases h : st.Size = 0 <;> simp [parseAndSubmitMem, memEntryGauges, MemoryEntry.ptrSize, h]

/-- The spec's gauges of an entry are four for an entry of nonzero size and
none otherwise. -/
theorem memEntryGauges_length (metricName : String) (stat : Option MemoryEntry)
    (tags : List String) :
    (memEntryGauges metricName stat tags).length = 4 * nonzeroEntries [stat] := by
  cases stat with
  | none => simp [memEntryGauges, nonzeroEntries, MemoryEntry.ptrSize]
  | some st =>
    by_cases h : st.Size = 0 <;> simp [memEntryGauges, nonzeroEntries, MemoryEntry.ptrSize, h]

/-- The count of nonzero entries of a list, entry by entry. -/
theorem nonzeroEntries_cons (e : Option MemoryEntry) (l : List (Option MemoryEntry)) :
    nonzeroEntries (e :: l) = nonzeroEntries [e] + nonzeroEntries l := by
  by_cases h : MemoryEntry.ptrSize e = 0 <;> simp [nonzeroEntries, List.filter_cons, h]
  omega

/-- When the four named entries are present, `computeMem` completes; it sends
the four gauges `.usage`, `.failcnt`, `.limit` and `.max` of each entry of
nonzero size and nothing for the others, then the six always-considered
gauges: 6 + 4 x (number of named entries of nonzero size) gauges. -/
theorem computeMem_all_entries_present (mem : MemoryStat) (tags : List String)
    (u tcp k sw : MemoryEntry) (hu : mem.Usage = some u) (htcp : mem.KernelTCP = some tcp)
    (hk : mem.Kernel = some k) (hsw : mem.Swap = some sw) :
    computeMem mem tags =
        Outcome.done
          ((memEntryGauges "containerd.mem.current" mem.Usage tags ++
              memEntryGauges "containerd.mem.kernel_tcp" mem.KernelTCP tags ++
              memEntryGauges "containerd.mem.kernel" mem.Kernel tags ++
              memEntryGauges "containerd.mem.swap" mem.Swap tags) ++
            [gauge "containerd.mem.cache" mem.Cache tags,
             gauge "containerd.mem.rss" mem.RSS tags,
             gauge "containerd.mem.rsshuge" mem.RSSHuge tags,
             gauge "containerd.mem.usage" u.Usage tags,
             gauge "containerd.mem.kernel.usage" k.Usage tags,
             gauge "containerd.mem.dirty" mem.Dirty tags]) ∧
      (computeMem mem tags).gauges.length =
        6 + 4 * nonzeroEntries [mem.Usage, mem.KernelTCP, mem.Kernel, mem.Swap] := by
  have hrun : computeMem mem tags =
      Outcome.done
        ((memEntryGauges "containerd.mem.current" mem.Usage tags ++
            memEntryGauges "containerd.mem.kernel_tcp" mem.KernelTCP tags ++
            memEntryGauges "containerd.mem.kernel" mem.Kernel tags ++
            memEntryGauges "containerd.mem.swap" mem.Swap tags) ++
          [gauge "containerd.mem.cache" mem.Cache tags,
           gauge "containerd.mem.rss" mem.RSS tags,
           gauge "containerd.mem.rsshuge" mem.RSSHuge tags,
           gauge "containerd.mem.usage" u.Usage tags,
           gauge "containerd.mem.kernel.usage" k.Usage tags,
           gauge "containerd.mem.dirty" mem.Dirty tags]) := by
    unfold computeMem
    simp only [hu, htcp, hk, hsw, memList, List.map_cons, List.map_nil, Outcome.seq,
      parseAndSubmitMem_present]
    simp [Outcome.andThen, Outcome.done]
  refine ⟨hrun, ?_⟩
  rw [hrun]
  simp only [Outcome.done, List.length_append, memEntryGauges_length, List.length_cons,
    List.length_nil]
  have hsum : nonzeroEntries [mem.Usage, mem.KernelTCP, mem.Kernel, mem.Swap] =
      nonzeroEntries [mem.Usage] + nonzeroEntries [mem.KernelTCP] +
        nonzeroEntries [mem.Kernel] + nonzeroEntries [mem.Swap] := by
    rw [nonzeroEntries_cons mem.Usage [mem.KernelTCP, mem.Kernel, mem.Swap],
      nonzeroEntries_cons mem.KernelTCP [mem.Kernel, mem.Swap],
      nonzeroEntries_cons mem.Kernel [mem.Swap]]
    omega
  rw [hsum]
  omega

/-- When one of the four named entries is absent, `computeMem` panics. -/
theorem computeMem_absent_entry_faults (mem : MemoryStat) (tags : List String)
    (h : mem.Usage = none ∨ mem.KernelTCP = none ∨ mem.Kernel = none ∨ mem.Swap = none) :
    (computeMem mem tags).fault = true := by
  have hnil : ∀ name, (parseAndSubmitMem name none tags).fault = true := fun _ => rfl
  unfold computeMem
  simp only [memList, List.map_cons, List.map_nil, Outcome.seq, Outcome.andThen_fault,
    Bool.or_eq_true]
  rcases h with h | h | h | h <;> rw [h] <;> simp [hnil]

/-- C15: on a Memory sub-structure whose current and kernel entries are
present with size zero and whose kernel_tcp and swap entries are absent,
`computeMem` panics in its loop, where `parseAndSubmitMem` calls `stat.Size()`
through the nil entry (line 311): it sends no gauge, where the claim counts
6 + 4 x 0 = 6; and `computeMem` panics whenever one of the four entries is
absent. -/
theorem computeMem_absent_entry_panics (tags : List String) :
    computeMem absentEntriesMem tags = Outcome.panic [] ∧
      6 + 4 * nonzeroEntries [absentEntriesMem.Usage, absentEntriesMem.KernelTCP,
        absentEntriesMem.Kernel, absentEntriesMem.Swap] = 6 ∧
      (∀ mem : MemoryStat,
        mem.Usage = none ∨ mem.KernelTCP = none ∨ mem.Kernel = none ∨ mem.Swap = none →
          (computeMem mem tags).fault = true) := by
  exact ⟨rfl, by decide, fun mem h => computeMem_absent_entry_faults mem tags h⟩

/-- The CPU step sends the four CPU gauges when usage and throttling are both
present, and none otherwise. -/
theorem cpuStep_gauges (m : Metrics) (tags : List String) :
    (cpuStep m tags).gauges =
      match m.CPU with
      | some { Usage := some usage, Throttling := some throttling } =>
        [gauge "containerd.cpu.system" usage.Kernel tags,
         gauge "containerd.cpu.total" usage.Total tags,
         gauge "containerd.cpu.user" usage.User tags,
         gauge "containerd.cpu.throttle.periods" throttling.Periods tags]
      | _ => [] := by
  unfold cpuStep
  cases hc : m.CPU with
  | none => rfl
  | some cpu =>
    obtain ⟨usage, throttling⟩ := cpu
    cases usage <;> cases throttling <;> simp [computeCPU, Outcome.done]

/-- C16: for the snapshot with `Memory{Cache: 100}` and both CPU sub-structures
present, the emission step panics in `computeMem`, on the call `stat.Size()`
through a nil entry (line 311), before any gauge is sent and before the CPU
condition is read: the four gauges that the CPU step sends for this snapshot
are not sent. -/
theorem emitSnapshot_mem_panic_drops_cpu (tags : List String) :
    emitSnapshot cacheOnlyCpuSnapshot tags = Outcome.panic [] ∧
      cpuStep cacheOnlyCpuSnapshot tags =
        Outcome.done
          [gauge "containerd.cpu.system" 1 tags,
           gauge "containerd.cpu.total" 3 tags,
           gauge "containerd.cpu.user" 2 tags,
           gauge "containerd.cpu.throttle.periods" 4 tags] := by
  constructor <;> rfl

/-! ## Decoding, tag order, flush and event order -/

/-- C17: `convertTasktoMetrics` returns the error and no snapshot when the
metrics call fails and when the type identifier of the payload is not
registered; it never returns both a snapshot and an error; and when the
registered decoder turns the payload into the zero-valued message it returns
the snapshot with every sub-structure absent and no error. -/
theorem convertTasktoMetrics_results (registry : Registry) (task : Task) :
    (∀ e, task.Metrics = Except.error e →
        (convertTasktoMetrics registry task).error = some e ∧
          (convertTasktoMetrics registry task).snapshot = none) ∧
      (∀ any, task.Metrics = Except.ok any → registry any.TypeUrl = none →
        (convertTasktoMetrics registry task).error =
            some ("type with url " ++ any.TypeUrl ++ ": not found") ∧
          (convertTasktoMetrics registry task).snapshot = none) ∧
      ¬ ((convertTasktoMetrics registry task).snapshot ≠ none ∧
          (convertTasktoMetrics registry task).error ≠ none) ∧
      (∀ any decode, task.Metrics = Except.ok any → registry any.TypeUrl = some decode →
        decode any.Value = Except.ok (Decoded.metrics Metrics.empty) →
        (convertTasktoMetrics registry task).snapshot = some Metrics.empty ∧
          (convertTasktoMetrics registry task).error = none) := by
  refine ⟨?_, ?_, ?_, ?_⟩
  · intro e he
    simp [convertTasktoMetrics, he, Converted.error, Converted.snapshot]
  · intro any hm hr
    rw [convertTasktoMetrics_unregistered registry task any hm hr]
    exact ⟨rfl, rfl⟩
  · cases convertTasktoMetrics registry task <;> simp [Converted.error, Converted.snapshot]
  · intro any decode hm hr hd
    simp [convertTasktoMetrics, hm, unmarshalAny, hr, hd, Converted.error, Converted.snapshot]

/-- The cases of the test: an unregistered type gives the "not found" error
and no snapshot, the registered type with an empty payload gives the snapshot
with every sub-structure absent. -/
theorem convertTasktoMetrics_results_witness :
    ((convertTasktoMetrics sampleRegistry
          { Metrics := Except.ok { TypeUrl := "io.containerd.cgroups.v1.Doge",
                                   Value := [] } }).error =
        some "type with url io.containerd.cgroups.v1.Doge: not found" ∧
      (convertTasktoMetrics sampleRegistry
          { Metrics := Except.ok { TypeUrl := "io.containerd.cgroups.v1.Doge",
                                   Value := [] } }).snapshot = none) ∧
      ((convertTasktoMetrics sampleRegistry
          { Metrics := Except.ok { TypeUrl := "io.containerd.cgroups.v1.Metrics",
                                   Value := [] } }).snapshot = some Metrics.empty ∧
        (convertTasktoMetrics sampleRegistry
          { Metrics := Except.ok { TypeUrl := "io.containerd.cgroups.v1.Metrics",
                                   Value := [] } }).error = none) :=
  ⟨(convertTasktoMetrics_results sampleRegistry
      { Metrics := Except.ok { TypeUrl := "io.containerd.cgroups.v1.Doge",
                               Value := [] } }).2.1 _ rfl (by simp [sampleRegistry]),
   (convertTasktoMetrics_results sampleRegistry
      { Metrics := Except.ok { TypeUrl := "io.containerd.cgroups.v1.Metrics",
                               Value := [] } }).2.2.2 _
      sampleDecode rfl (by simp [sampleRegistry]) rfl⟩

/-- Every gauge of `parseAndSubmitBlkio` reports one entry of nonzero size of
the list, with the metric name and the entry's value; its tags are the tags
handed in, then the device and operation tags of the entries of nonzero size
before it, then its own. -/
theorem parseAndSubmitBlkio_entry (metricName : String) (list : List BlkIOEntry) :
    ∀ (tags : List String) (g : Gauge), g ∈ parseAndSubmitBlkio metricName list tags →
      ∃ pre m post, list = pre ++ m :: post ∧ m.Size ≠ 0 ∧ g.name = metricName ∧
        g.value = (m.Value : Int) ∧
        g.tags =
          tags ++ (pre.filter fun e => decide (e.Size ≠ 0)).flatMap devOpTags ++
            devOpTags m := by
  induction list with
  | nil => intro tags g hg; simp [parseAndSubmitBlkio] at hg
  | cons a rest ih =>
    intro tags g hg
    unfold parseAndSubmitBlkio at hg
    split at hg
    · next hz =>
      obtain ⟨pre, m, post, hl, hm, hn, hv, ht⟩ := ih tags g hg
      refine ⟨a :: pre, m, post, by rw [hl]; rfl, hm, hn, hv, ?_⟩
      rw [ht, List.filter_cons]
      simp [hz]
    · next hz =>
      dsimp only at hg
      rcases List.mem_cons.mp hg with rfl | h
      · exact ⟨[], a, rest, rfl, hz, rfl, rfl, by simp [gauge, blkiotags, devOpTags]⟩
      · obtain ⟨pre, m, post, hl, hm, hn, hv, ht⟩ := ih (tags ++ blkiotags a) g h
        refine ⟨a :: pre, m, post, by rw [hl]; rfl, hm, hn, hv, ?_⟩
        rw [ht, List.filter_cons]
        simp [hz, blkiotags, devOpTags]

/-- C18: the tags of every gauge sent for a container start with the tags
collected from the container, then the user tags, then the looked-up tags, in
this order and with duplicates kept; a gauge that is not a blkio gauge carries
exactly these; a blkio gauge reports an entry of nonzero size of the list of
its category in the decoded snapshot, and carries after these tags the device
and operation tags of the entries of nonzero size before it in that list, then
"dev:<device>" of its own entry and, when the operation is not empty,
"operation:<op>". -/
theorem computeMetrics_tag_order (env : Env) (userTags : List String) (ctn : Container)
    (g : Gauge) (hg : g ∈ (computeMetricsCtn env userTags ctn).gauges) :
    ((collectTags ctn).1 ++ userTags ++ (env.tagger ctn.ID false).1) <+: g.tags ∧
      (hasPrefix "containerd.blkio." g.name = false →
        g.tags = (collectTags ctn).1 ++ userTags ++ (env.tagger ctn.ID false).1) ∧
      (hasPrefix "containerd.blkio." g.name = true →
        ∃ t snapshot blkio p pre m post,
          ctn.Task = Except.ok t ∧
          convertTasktoMetrics env.registry t = Converted.ok snapshot ∧
          snapshot.Blkio = some blkio ∧ p ∈ blkioList blkio ∧ g.name = p.1 ∧
          p.2 = pre ++ m :: post ∧ m.Size ≠ 0 ∧ g.value = (m.Value : Int) ∧
          g.tags =
            (collectTags ctn).1 ++ userTags ++ (env.tagger ctn.ID false).1 ++
              (pre.filter fun e => decide (e.Size ≠ 0)).flatMap devOpTags ++
              (["dev:" ++ m.Device] ++ if m.Op ≠ "" then ["operation:" ++ m.Op] else [])) := by
  obtain ⟨t, m, htask, hconv, h⟩ := computeMetricsCtn_origin env userTags ctn g hg
  have hexact : g.tags = (collectTags ctn).1 ++ userTags ++ (env.tagger ctn.ID false).1 →
      hasPrefix "containerd.blkio." g.name = false →
      ((collectTags ctn).1 ++ userTags ++ (env.tagger ctn.ID false).1) <+: g.tags ∧
      (hasPrefix "containerd.blkio." g.name = false →
        g.tags = (collectTags ctn).1 ++ userTags ++ (env.tagger ctn.ID false).1) ∧
      (hasPrefix "containerd.blkio." g.name = true →
        ∃ t snapshot blkio p pre m post,
          ctn.Task = Except.ok t ∧
          convertTasktoMetrics env.registry t = Converted.ok snapshot ∧
          snapshot.Blkio = some blkio ∧ p ∈ blkioList blkio ∧ g.name = p.1 ∧
          p.2 = pre ++ m :: post ∧ m.Size ≠ 0 ∧ g.value = (m.Value : Int) ∧
          g.tags =
            (collectTags ctn).1 ++ userTags ++ (env.tagger ctn.ID false).1 ++
              (pre.filter fun e => decide (e.Size ≠ 0)).flatMap devOpTags ++
              (["dev:" ++ m.Device] ++ if m.Op ≠ "" then ["operation:" ++ m.Op] else [])) := by
    intro ht hn
    refine ⟨by rw [ht], fun _ => ht, fun hp => ?_⟩
    rw [hn] at hp
    exact absurd hp (by decide)
  obtain ⟨hmemP, hblkP, hhugeP, hblkT⟩ := name_prefixes
  rcases h with h | h
  · have hk := computeExtra_kind ctn _ g h
    exact hexact hk.2 (hblkP _ (by rw [hk.1]; exact List.mem_cons_self _ _))
  · rcases emitSnapshot_kind m _ g h with h | h | h | h
    · exact hexact h.2.1 (hblkP _ (List.mem_cons_of_mem _ (by simp [h.1])))
    · exact hexact h.2 (hblkP _ (List.mem_cons_of_mem _ (by simp [h.1])))
    · obtain ⟨hname, hpre, _, blkio, hb, hgb⟩ := h
      refine ⟨hpre, ?_, ?_⟩
      · intro hn
        rw [hblkT g.name hname] at hn
        exact absurd hn (by decide)
      · intro _
        unfold computeBlkio at hgb
        obtain ⟨p, hp, hgp⟩ := List.mem_flatMap.mp hgb
        obtain ⟨pre, e, post, hl, he, hn, hv, ht⟩ :=
          parseAndSubmitBlkio_entry p.1 p.2 _ g hgp
        exact ⟨t, m, blkio, p, pre, e, post, htask, hconv, hb, hp, hn, hl, he, hv, ht⟩
    · exact hexact h.2.1 (hblkP _ (List.mem_cons_of_mem _ (by simp [h.1])))

/-- The second blkio gauge of the container with blkio entries is sent, and it
carries image, label and runtime tags, then the user tag, then the looked-up
tag, then the tags of the read entry before it, then its own. -/
theorem computeMetrics_tag_order_witness :
    gauge "containerd.blkio.service_recursive_bytes" 20
        ["image:redis", "foo:bar", "runtime:containerd", "test", "kube_namespace:default",
         "dev:sda", "operation:Read", "dev:sda", "operation:Write"] ∈
        (computeMetricsCtn sampleEnv ["test"] blkioCtn).gauges ∧
      ((collectTags blkioCtn).1 ++ ["test"] ++ (sampleEnv.tagger blkioCtn.ID false).1) <+:
        ["image:redis", "foo:bar", "runtime:containerd", "test", "kube_namespace:default",
         "dev:sda", "operation:Read", "dev:sda", "operation:Write"] ∧
      (∃ t snapshot blkio p pre m post,
        blkioCtn.Task = Except.ok t ∧
        convertTasktoMetrics sampleEnv.registry t = Converted.ok snapshot ∧
        snapshot.Blkio = some blkio ∧ p ∈ blkioList blkio ∧
        "containerd.blkio.service_recursive_bytes" = p.1 ∧
        p.2 = pre ++ m :: post ∧ m.Size ≠ 0 ∧ ((20 : Nat) : Int) = (m.Value : Int) ∧
        ["image:redis", "foo:bar", "runtime:containerd", "test", "kube_namespace:default",
         "dev:sda", "operation:Read", "dev:sda", "operation:Write"] =
          (collectTags blkioCtn).1 ++ ["test"] ++ (sampleEnv.tagger blkioCtn.ID false).1 ++
            (pre.filter fun e => decide (e.Size ≠ 0)).flatMap devOpTags ++
            (["dev:" ++ m.Device] ++ if m.Op ≠ "" then ["operation:" ++ m.Op] else [])) :=
  have h := computeMetrics_tag_order sampleEnv ["test"] blkioCtn
    (gauge "containerd.blkio.service_recursive_bytes" 20
      ["image:redis", "foo:bar", "runtime:containerd", "test", "kube_namespace:default",
       "dev:sda", "operation:Read", "dev:sda", "operation:Write"])
    (by decide)
  ⟨by decide, h.1, h.2.2 (by decide)⟩

/-- C19: `Flush` returns the full buffer in arrival order and leaves the
buffer empty, filters and connection state unchanged, so a second `Flush`
with no event appended in between returns the empty sequence. -/
theorem flush_drains_buffer (s : Subscriber) (now later : Int) :
    (s.Flush now).1 = s.buffer ∧
      (s.Flush now).2.buffer = [] ∧
      (s.Flush now).2.Filters = s.Filters ∧
      (s.Flush now).2.connectionState = s.connectionState ∧
      ((s.Flush now).2.Flush later).1 = [] := by
  refine ⟨rfl, rfl, rfl, rfl, rfl⟩

/-- The number of records of one event: one when its topic has three
segments, none otherwise. -/
theorem computeEvent_length (tagger : Tagger) (hostname : String)
    (userTags : List String) (e : ContainerdEvent) :
    (computeEvent tagger hostname userTags e).length = if wellFormed e then 1 else 0 := by
  by_cases h : (stringsSplit e.Topic).length = 3
  · obtain ⟨a, category, b, hs⟩ := List.length_eq_three.mp h
    rw [computeEvent_wellformed tagger hostname userTags e a category b hs]
    simp [wellFormed, h]
  · rw [computeEvent_malformed tagger hostname userTags e h]
    simp [wellFormed, h]

/-- C20: `computeEvents` sends the records in input order, one per event whose
topic has three segments: the records of `A ++ B` are those of `A` followed by
those of `B`, their number is the number of well-formed events, and a
well-formed event followed by a malformed one gives exactly one record. -/
theorem computeEvents_append_and_count (tagger : Tagger) (hostname : String)
    (as bs : List ContainerdEvent) (userTags : List String) :
    computeEvents tagger hostname (as ++ bs) userTags =
        computeEvents tagger hostname as userTags ++
          computeEvents tagger hostname bs userTags ∧
      (computeEvents tagger hostname as userTags).length = (as.filter wellFormed).length ∧
      (computeEvents tagger hostname
          [{ ID := "xxx", Timestamp := 0, Topic := "/containers/delete",
             Message := "Container xxx  deleted", Extra := [("foo", "bar")] },
           { ID := "", Timestamp := 0, Topic := "containers/delete",
             Message := "", Extra := [] }] userTags).length = 1 := by
  have hcount : ∀ l : List ContainerdEvent,
      (computeEvents tagger hostname l userTags).length = (l.filter wellFormed).length := by
    intro l
    induction l with
    | nil => rfl
    | cons e rest ih =>
      have hcons : computeEvents tagger hostname (e :: rest) userTags =
          computeEvent tagger hostname userTags e ++
            computeEvents tagger hostname rest userTags := by
        simp [computeEvents]
      rw [hcons, List.length_append, ih, computeEvent_length, List.filter_cons]
      by_cases hw : wellFormed e = true <;> simp [hw]
      omega
  refine ⟨by simp [computeEvents], hcount as, ?_⟩
  rw [hcount]
  decide

/-! ## The truncation of the container ID in the log calls -/

/-- The slice `s[:12]` panics exactly when `s` has fewer than 12 bytes. -/
theorem slicePanics_twelve (s : String) :
    slicePanics s 12 = true ↔ s.utf8ByteSize < 12 := by
  simp [slicePanics]

/-- The task retrieval failure path: the loop body sends nothing, and it
panics exactly when the ID has fewer than 12 bytes. -/
theorem computeMetricsCtn_task_error (env : Env) (userTags : List String)
    (ctn : Container) (e : String) (htask : ctn.Task = Except.error e) :
    computeMetricsCtn env userTags ctn =
      { gauges := [], fault := decide (ctn.ID.utf8ByteSize < 12) } := by
  unfold computeMetricsCtn
  rw [htask]
  by_cases h : ctn.ID.utf8ByteSize < 12 <;>
    simp [slicePanics, h, Outcome.panic, Outcome.done]

/-- C21: for the 3-byte container ID "web" the slice `ctn.ID()[:12]` is out of
bounds, and each of the three failure paths of `computeMetrics` that evaluate
it for their log message panics: task retrieval failure, `collectTags`
failure and `computeExtra` failure. -/
theorem computeMetrics_failure_paths_short_id_panic :
    slicePanics "web" 12 = true ∧
      computeMetricsCtn sampleEnv ["test"] shortIDNoTaskCtn = Outcome.panic [] ∧
      ((collectTags shortIDLabelsFailCtn).2 = some "labels unavailable" ∧
        computeMetricsCtn sampleEnv ["test"] shortIDLabelsFailCtn = Outcome.panic []) ∧
      ((computeExtra shortIDNoSizeCtn []).2 = some "size unavailable" ∧
        computeMetricsCtn sampleEnv ["test"] shortIDNoSizeCtn = Outcome.panic []) := by
  decide

end Containerd
